import Mathlib

/-!
# GEMM-based convolution: descriptor validation and set-up

A shallow embedding of `src/cpu/gemm_convolution.hpp` (mkl-dnn): the three
primitive descriptors `_gemm_convolution_fwd_t::pd_t`,
`gemm_convolution_bwd_data_t::pd_t` and `gemm_convolution_bwd_weights_t::pd_t`
with their `init`, `set_default_params`, `src_format`, `wei_format` and
`is_gemm_conv_format`, the parts of the three constructors that derive
`beta_` and the worker count `nthr_`, and the `switch` of the two backward
`execute` members.

Stateful C++ members become explicit state passing: a member function that
mutates `this` takes the descriptor and returns the status together with the
descriptor it leaves behind.
-/

namespace mkldnn

/-! ## Types of `c_types_map.hpp` (enumerations named in the source) -/

/-- Modelled from the spec: `status_t` (declared in the absent c_types_map.hpp).
The source names `success` and `unimplemented`; the spec adds out-of-memory;
`other` stands for every remaining status code. -/
inductive status_t where
  | success
  | out_of_memory
  | unimplemented
  | other (code : Nat)
  deriving DecidableEq, Repr

/-- Modelled from the spec: `prop_kind_t` (declared in the absent c_types_map.hpp),
with the propagation kinds the source names; `other` stands for every
remaining kind. -/
inductive prop_kind_t where
  | forward_training
  | forward_inference
  | backward
  | backward_data
  | backward_weights
  | other (code : Nat)
  deriving DecidableEq, Repr

/-- Modelled from the spec: `alg_kind_t` (declared in the absent c_types_map.hpp):
the direct convolution algorithm, the rectified-linear activation, and
`other` for every remaining algorithm (transform-domain convolutions, other
activations). -/
inductive alg_kind_t where
  | convolution_direct
  | eltwise_relu
  | other (code : Nat)
  deriving DecidableEq, Repr

/-- Modelled from the spec: `data_type_t` (declared in the absent c_types_map.hpp):
single-precision floating point and `other` for every remaining type. -/
inductive data_type_t where
  | f32
  | other (code : Nat)
  deriving DecidableEq, Repr

/-- Modelled from the spec: `memory_format_t` (declared in the absent
c_types_map.hpp), with the layouts the source names; `other` stands for
every remaining layout. -/
inductive memory_format_t where
  | any
  | x
  | nchw
  | ncdhw
  | oihw
  | goihw
  | oidhw
  | goidhw
  | other (code : Nat)
  deriving DecidableEq, Repr

/-- Modelled from the spec: `primitive_kind_t` (declared in the absent
c_types_map.hpp): the two fusable post-operation kinds and `other` for every
remaining primitive kind. -/
inductive primitive_kind_t where
  | sum
  | eltwise
  | other (code : Nat)
  deriving DecidableEq, Repr

/-! ## Helpers of `utils.hpp` -/

namespace utils

/-- Modelled from the spec: `utils::implication(cause, effect)` of the absent
utils.hpp, material implication on booleans. -/
def implication (cause effect : Bool) : Bool := !cause || effect

/-- Modelled from the spec: `utils::one_of(val, a, b)` of the absent utils.hpp:
the value equals one of the two listed items. -/
def one_of {α : Type} [DecidableEq α] (val a b : α) : Bool :=
  val == a || val == b

/-- Modelled from the spec: `utils::everyone_is(val, a, b, c)` of the absent
utils.hpp: every listed item equals the value. -/
def everyone_is {α : Type} [DecidableEq α] (val a b c : α) : Bool :=
  val == a && (val == b && val == c)

end utils

/-! ## Post-ops (`primitive_attr.hpp`) -/

/-- Modelled from the spec: `post_ops_t::entry_t` of the absent
primitive_attr.hpp: a fused operation is identified by its primitive kind
and, for an element-wise activation, by the activation algorithm. -/
structure entry_t where
  kind : primitive_kind_t
  alg : alg_kind_t
  deriving DecidableEq, Repr

namespace entry_t

/-- Modelled from the spec: `entry_t::is_relu()` of the absent primitive_attr.hpp:
the entry is the rectified-linear activation. -/
def is_relu (e : entry_t) : Bool :=
  e.kind == primitive_kind_t.eltwise && e.alg == alg_kind_t.eltwise_relu

/-- Modelled from the spec: `entry_t::is_sum()` of the absent primitive_attr.hpp:
the entry is the running-sum accumulation. -/
def is_sum (e : entry_t) : Bool :=
  e.kind == primitive_kind_t.sum

end entry_t

instance : Inhabited entry_t := ⟨⟨primitive_kind_t.other 0, alg_kind_t.other 0⟩⟩

/-- The post-op sequence `post_ops_t`: the entries `entry_[0 .. len_ - 1]` in order. -/
abbrev post_ops_t := List entry_t

namespace post_ops_t

/-- The member `len_`: the number of entries. -/
def len_ (po : post_ops_t) : Nat := po.length

/-- The member access `entry_[i]`. -/
def entry_ (po : post_ops_t) (i : Nat) : entry_t := po.getD i default

/-- The loop of `find`: scan from index `idx` on, return the first index whose
entry has the given kind, or -1. -/
def findFrom (kind : primitive_kind_t) : List entry_t → Int → Int
  | [], _ => -1
  | e :: rest, idx => if e.kind == kind then idx else findFrom kind rest (idx + 1)

/-- Modelled from the spec: `post_ops_t::find(kind)` of the absent
primitive_attr.hpp: the index of the first entry of the given kind, or -1
when there is none. -/
def find (po : post_ops_t) (kind : primitive_kind_t) : Int :=
  findFrom kind po 0

end post_ops_t

/-! ## Memory and convolution descriptors -/

/-- The fields of `memory_desc_t` that the source reads: rank, element type
and layout. -/
structure memory_desc_t where
  ndims : Int
  data_type : data_type_t
  format : memory_format_t
  deriving DecidableEq, Repr

/-- The fields of `convolution_desc_t` that the source reads. -/
structure convolution_desc_t where
  prop_kind : prop_kind_t
  alg_kind : alg_kind_t
  src_desc : memory_desc_t
  diff_src_desc : memory_desc_t
  weights_desc : memory_desc_t
  diff_weights_desc : memory_desc_t
  bias_desc : memory_desc_t
  diff_bias_desc : memory_desc_t
  dst_desc : memory_desc_t
  diff_dst_desc : memory_desc_t
  deriving DecidableEq, Repr

/-- The behaviour of `cpu_memory_pd_t::set_format` (absent cpu_memory.hpp),
taken as a parameter: from the descriptor held by the memory primitive
descriptor and the requested layout it yields a status and the descriptor
held afterwards. -/
abbrev set_format_t := memory_desc_t → memory_format_t → status_t × memory_desc_t

/-- Modelled from the spec: the `set_format` that stores the given layout and
returns success. -/
def set_format_ok : set_format_t :=
  fun d fmt => (status_t.success, { d with format := fmt })

/-- A `set_format` that fails with out-of-memory and leaves the descriptor as it was. -/
def set_format_oom : set_format_t :=
  fun d _ => (status_t.out_of_memory, d)

/-- One guarded line of `set_default_params`:
`if (pd.desc()->format == any) CHECK(pd.set_format(fmt));` up to the early
return: the status of the line and the descriptor held afterwards. -/
def set_if_any (sf : set_format_t) (d : memory_desc_t) (fmt : memory_format_t) :
    status_t × memory_desc_t :=
  if d.format == memory_format_t.any then sf d fmt else (status_t.success, d)

/-! ## Forward: `_gemm_convolution_fwd_t` -/

namespace _gemm_convolution_fwd_t

/-- The state of `_gemm_convolution_fwd_t<with_relu>::pd_t`, the same for both
values of the template parameter: the operation descriptor
`cdesc_()`, the answers of the base-class accessors `with_groups()` and
`with_bias()` (the request's group presence and bias presence), the post-ops
of `attr()`, and the descriptors held by the four memory primitive
descriptors. -/
structure pd_t where
  cdesc_ : convolution_desc_t
  with_groups : Bool
  with_bias : Bool
  post_ops_ : post_ops_t
  src_pd_ : memory_desc_t
  dst_pd_ : memory_desc_t
  weights_pd_ : memory_desc_t
  bias_pd_ : memory_desc_t
  deriving DecidableEq, Repr

namespace pd_t

/-- The member `src_format()`. -/
def src_format (p : pd_t) : memory_format_t :=
  if p.cdesc_.src_desc.ndims == 4 then memory_format_t.nchw else memory_format_t.ncdhw

/-- The member `wei_format()`. -/
def wei_format (p : pd_t) : memory_format_t :=
  if p.cdesc_.src_desc.ndims == 4 then
    (if p.with_groups then memory_format_t.goihw else memory_format_t.oihw)
  else
    (if p.with_groups then memory_format_t.goidhw else memory_format_t.oidhw)

/-- The member `set_default_params()`: each `CHECK` returns early with the
failing status, leaving the descriptor as changed so far. -/
def set_default_params (sf : set_format_t) (p : pd_t) : status_t × pd_t :=
  let r1 := set_if_any sf p.src_pd_ (src_format p)
  let p1 := { p with src_pd_ := r1.2 }
  if r1.1 != status_t.success then (r1.1, p1) else
  let r2 := set_if_any sf p1.dst_pd_ (src_format p1)
  let p2 := { p1 with dst_pd_ := r2.2 }
  if r2.1 != status_t.success then (r2.1, p2) else
  let r3 := set_if_any sf p2.weights_pd_ (wei_format p2)
  let p3 := { p2 with weights_pd_ := r3.2 }
  if r3.1 != status_t.success then (r3.1, p3) else
  let r4 := set_if_any sf p3.bias_pd_ memory_format_t.x
  let p4 := { p3 with bias_pd_ := r4.2 }
  if r4.1 != status_t.success then (r4.1, p4) else
  (status_t.success, p4)

/-- The member `is_gemm_conv_format()`, as a function of `attr()->post_ops_`. -/
def is_gemm_conv_format (po : post_ops_t) : Bool :=
  let ok := true
  match po.len_ with
  | 0 => ok
  | 1 => ok && ((po.entry_ 0).is_relu || (po.entry_ 0).is_sum)
  | 2 => ok && ((po.entry_ 0).is_sum && (po.entry_ 1).is_relu)
  | _ => false

/-- The member `init()`: the returned status and the descriptor left behind.
The conjuncts of `ok` are evaluated in the source order, on the state that
`set_default_params()` leaves; the assertion on the engine kind is outside
the model. -/
def init (sf : set_format_t) (p : pd_t) : status_t × pd_t :=
  let r := set_default_params sf p
  let q := r.2
  let ok := true
    && r.1 == status_t.success
    && utils.one_of q.cdesc_.prop_kind prop_kind_t.forward_training
         prop_kind_t.forward_inference
    && q.cdesc_.alg_kind == alg_kind_t.convolution_direct
    && utils.everyone_is data_type_t.f32 q.cdesc_.src_desc.data_type
         q.cdesc_.weights_desc.data_type q.cdesc_.dst_desc.data_type
    && utils.implication q.with_bias (data_type_t.f32 == q.cdesc_.bias_desc.data_type)
    && q.src_pd_.format == src_format q
    && q.dst_pd_.format == src_format q
    && q.weights_pd_.format == wei_format q
    && is_gemm_conv_format q.post_ops_
  (if ok then status_t.success else status_t.unimplemented, q)

end pd_t

/-- The constructor's `beta_`:
`beta_ = post_ops.find(primitive_kind::sum) >= 0 ? one : zero`, with the
constants 1.0 and 0.0 as rationals. -/
def beta_ (po : post_ops_t) : ℚ :=
  if po.find primitive_kind_t.sum ≥ 0 then 1 else 0

end _gemm_convolution_fwd_t

/-! ## Backward data: `gemm_convolution_bwd_data_t` -/

namespace gemm_convolution_bwd_data_t

/-- The state of `gemm_convolution_bwd_data_t::pd_t`: the operation descriptor
`desc()`, the answer of the base-class accessor `with_groups()`, the
post-ops of `attr()`, and the descriptors held by the three memory primitive
descriptors. -/
structure pd_t where
  desc : convolution_desc_t
  with_groups : Bool
  post_ops_ : post_ops_t
  diff_src_pd_ : memory_desc_t
  diff_dst_pd_ : memory_desc_t
  weights_pd_ : memory_desc_t
  deriving DecidableEq, Repr

namespace pd_t

/-- The member `src_format()`. -/
def src_format (p : pd_t) : memory_format_t :=
  if p.desc.diff_src_desc.ndims == 4 then memory_format_t.nchw else memory_format_t.ncdhw

/-- The member `wei_format()`. -/
def wei_format (p : pd_t) : memory_format_t :=
  if p.desc.diff_src_desc.ndims == 4 then
    (if p.with_groups then memory_format_t.goihw else memory_format_t.oihw)
  else
    (if p.with_groups then memory_format_t.goidhw else memory_format_t.oidhw)

/-- The member `set_default_params()`: each `CHECK` returns early with the
failing status, leaving the descriptor as changed so far. -/
def set_default_params (sf : set_format_t) (p : pd_t) : status_t × pd_t :=
  let r1 := set_if_any sf p.diff_src_pd_ (src_format p)
  let p1 := { p with diff_src_pd_ := r1.2 }
  if r1.1 != status_t.success then (r1.1, p1) else
  let r2 := set_if_any sf p1.diff_dst_pd_ (src_format p1)
  let p2 := { p1 with diff_dst_pd_ := r2.2 }
  if r2.1 != status_t.success then (r2.1, p2) else
  let r3 := set_if_any sf p2.weights_pd_ (wei_format p2)
  let p3 := { p2 with weights_pd_ := r3.2 }
  if r3.1 != status_t.success then (r3.1, p3) else
  (status_t.success, p3)

/-- The member `init()`: the returned status and the descriptor left behind.
The conjuncts of `ok` are evaluated in the source order, on the state that
`set_default_params()` leaves; the assertion on the engine kind is outside
the model. -/
def init (sf : set_format_t) (p : pd_t) : status_t × pd_t :=
  let r := set_default_params sf p
  let q := r.2
  let ok := true
    && r.1 == status_t.success
    && utils.one_of q.desc.prop_kind prop_kind_t.backward prop_kind_t.backward_data
    && q.desc.alg_kind == alg_kind_t.convolution_direct
    && utils.everyone_is data_type_t.f32 q.desc.diff_src_desc.data_type
         q.desc.weights_desc.data_type q.desc.diff_dst_desc.data_type
    && q.diff_src_pd_.format == src_format q
    && q.diff_dst_pd_.format == src_format q
    && q.weights_pd_.format == wei_format q
  (if ok then status_t.success else status_t.unimplemented, q)

end pd_t

end gemm_convolution_bwd_data_t

/-! ## Backward weights: `gemm_convolution_bwd_weights_t` -/

namespace gemm_convolution_bwd_weights_t

/-- The state of `gemm_convolution_bwd_weights_t::pd_t`: the operation
descriptor `desc()`, the answers of the base-class accessors `with_groups()`
and `with_bias()`, the post-ops of `attr()`, and the descriptors held by the
four memory primitive descriptors. -/
structure pd_t where
  desc : convolution_desc_t
  with_groups : Bool
  with_bias : Bool
  post_ops_ : post_ops_t
  src_pd_ : memory_desc_t
  diff_dst_pd_ : memory_desc_t
  diff_weights_pd_ : memory_desc_t
  diff_bias_pd_ : memory_desc_t
  deriving DecidableEq, Repr

namespace pd_t

/-- The member `src_format()`. -/
def src_format (p : pd_t) : memory_format_t :=
  if p.desc.src_desc.ndims == 4 then memory_format_t.nchw else memory_format_t.ncdhw

/-- The member `wei_format()`. -/
def wei_format (p : pd_t) : memory_format_t :=
  if p.desc.src_desc.ndims == 4 then
    (if p.with_groups then memory_format_t.goihw else memory_format_t.oihw)
  else
    (if p.with_groups then memory_format_t.goidhw else memory_format_t.oidhw)

/-- The member `set_default_params()`: each `CHECK` returns early with the
failing status, leaving the descriptor as changed so far. -/
def set_default_params (sf : set_format_t) (p : pd_t) : status_t × pd_t :=
  let r1 := set_if_any sf p.src_pd_ (src_format p)
  let p1 := { p with src_pd_ := r1.2 }
  if r1.1 != status_t.success then (r1.1, p1) else
  let r2 := set_if_any sf p1.diff_dst_pd_ (src_format p1)
  let p2 := { p1 with diff_dst_pd_ := r2.2 }
  if r2.1 != status_t.success then (r2.1, p2) else
  let r3 := set_if_any sf p2.diff_weights_pd_ (wei_format p2)
  let p3 := { p2 with diff_weights_pd_ := r3.2 }
  if r3.1 != status_t.success then (r3.1, p3) else
  let r4 := set_if_any sf p3.diff_bias_pd_ memory_format_t.x
  let p4 := { p3 with diff_bias_pd_ := r4.2 }
  if r4.1 != status_t.success then (r4.1, p4) else
  (status_t.success, p4)

/-- The member `init()`: the returned status and the descriptor left behind.
The conjuncts of `ok` are evaluated in the source order, on the state that
`set_default_params()` leaves; the assertion on the engine kind is outside
the model. -/
def init (sf : set_format_t) (p : pd_t) : status_t × pd_t :=
  let r := set_default_params sf p
  let q := r.2
  let ok := true
    && r.1 == status_t.success
    && utils.one_of q.desc.prop_kind prop_kind_t.backward prop_kind_t.backward_weights
    && q.desc.alg_kind == alg_kind_t.convolution_direct
    && utils.everyone_is data_type_t.f32 q.desc.src_desc.data_type
         q.desc.diff_weights_desc.data_type q.desc.diff_dst_desc.data_type
    && utils.implication q.with_bias (data_type_t.f32 == q.desc.diff_bias_desc.data_type)
    && q.src_pd_.format == src_format q
    && q.diff_dst_pd_.format == src_format q
    && q.diff_weights_pd_.format == wei_format q
  (if ok then status_t.success else status_t.unimplemented, q)

end pd_t

end gemm_convolution_bwd_weights_t

/-! ## Constructors: the worker count `nthr_`, and `execute` -/

/-- The fields of `jit_gemm_conv_conf_t` (declared in the absent
gemm_convolution_utils.hpp) that the constructors read once `init_conf` has
filled them: batch size, group count, output spatial volume and output
depth, all of the C type `int`. -/
structure jit_gemm_conv_conf_t where
  mb : Int
  ngroups : Int
  os : Int
  od : Int
  deriving DecidableEq, Repr

/-- The C division of two `int` values: the quotient truncated toward zero, and
no result where C leaves the division undefined (a zero divisor, or the
least `int` divided by -1). -/
def c_div (a b : Int) : Option Int :=
  if b = 0 ∨ (a = -2147483648 ∧ b = -1) then none else some (Int.tdiv a b)

/-- The path that `execute` takes through its `switch`: one of the three
execution routines, or the `default` branch with its failing assertion. -/
inductive execute_path_t where
  | execute_forward
  | execute_backward_data
  | execute_backward_weights
  | invalid_prop_kind
  deriving DecidableEq, Repr

namespace _gemm_convolution_fwd_t

/-- The constructor's `nthr_`, from the configuration `conf_.jcp_` and the value
of `omp_get_max_threads()`:
`os / omp_get_max_threads() < 512 && implication(od == 1, mb != 1 || ngroups > 2)
? omp_get_max_threads() : 1`. The division is evaluated first; there is no
result where it is undefined. -/
def nthr_ (jcp : jit_gemm_conv_conf_t) (omp_get_max_threads : Int) : Option Int :=
  match c_div jcp.os omp_get_max_threads with
  | none => none
  | some share =>
    some (if decide (share < 512)
            && utils.implication (jcp.od == 1) (jcp.mb != 1 || decide (jcp.ngroups > 2))
          then omp_get_max_threads else 1)

end _gemm_convolution_fwd_t

namespace gemm_convolution_bwd_data_t

/-- The constructor's `nthr_`:
`mb != 1 || ngroups > 2 ? omp_get_max_threads() : 1`. -/
def nthr_ (jcp : jit_gemm_conv_conf_t) (omp_get_max_threads : Int) : Int :=
  if jcp.mb != 1 || decide (jcp.ngroups > 2) then omp_get_max_threads else 1

/-- The member `execute`: the branch of the `switch` on `conf_.desc()->prop_kind`. -/
def execute (conf_ : pd_t) : execute_path_t :=
  match conf_.desc.prop_kind with
  | prop_kind_t.backward => execute_path_t.execute_backward_data
  | prop_kind_t.backward_data => execute_path_t.execute_backward_data
  | _ => execute_path_t.invalid_prop_kind

end gemm_convolution_bwd_data_t

namespace gemm_convolution_bwd_weights_t

/-- The constructor's `nthr_`:
`os / omp_get_max_threads() < 256 && (mb != 1 || ngroups > 2)
? omp_get_max_threads() : 1`. The division is evaluated first; there is no
result where it is undefined. -/
def nthr_ (jcp : jit_gemm_conv_conf_t) (omp_get_max_threads : Int) : Option Int :=
  match c_div jcp.os omp_get_max_threads with
  | none => none
  | some share =>
    some (if decide (share < 256) && (jcp.mb != 1 || decide (jcp.ngroups > 2))
          then omp_get_max_threads else 1)

/-- The member `execute`: the branch of the `switch` on `conf_.desc()->prop_kind`. -/
def execute (conf_ : pd_t) : execute_path_t :=
  match conf_.desc.prop_kind with
  | prop_kind_t.backward => execute_path_t.execute_backward_weights
  | prop_kind_t.backward_weights => execute_path_t.execute_backward_weights
  | _ => execute_path_t.invalid_prop_kind

end gemm_convolution_bwd_weights_t

/-! ## Sample requests -/

/-- A rank-4 single-precision memory descriptor with the given layout. -/
def md4 (fmt : memory_format_t) : memory_desc_t :=
  { ndims := 4, data_type := data_type_t.f32, format := fmt }

/-- A single-precision direct-convolution operation descriptor of rank 4 with
the given propagation kind; every tensor layout is left unspecified. -/
def cd4 (pk : prop_kind_t) : convolution_desc_t :=
  { prop_kind := pk, alg_kind := alg_kind_t.convolution_direct,
    src_desc := md4 memory_format_t.any, diff_src_desc := md4 memory_format_t.any,
    weights_desc := md4 memory_format_t.any, diff_weights_desc := md4 memory_format_t.any,
    bias_desc := { ndims := 1, data_type := data_type_t.f32, format := memory_format_t.any },
    diff_bias_desc := { ndims := 1, data_type := data_type_t.f32, format := memory_format_t.any },
    dst_desc := md4 memory_format_t.any, diff_dst_desc := md4 memory_format_t.any }

/-- The post-op entry `sum`. -/
def e_sum : entry_t := { kind := primitive_kind_t.sum, alg := alg_kind_t.other 0 }

/-- The post-op entry `relu`. -/
def e_relu : entry_t := { kind := primitive_kind_t.eltwise, alg := alg_kind_t.eltwise_relu }

/-- A forward-training request of rank 4, ungrouped, with bias, all layouts
unspecified, and the given post-ops. -/
def fwd_req (po : post_ops_t) : _gemm_convolution_fwd_t.pd_t :=
  { cdesc_ := cd4 prop_kind_t.forward_training, with_groups := false, with_bias := true,
    post_ops_ := po,
    src_pd_ := md4 memory_format_t.any, dst_pd_ := md4 memory_format_t.any,
    weights_pd_ := md4 memory_format_t.any,
    bias_pd_ := { ndims := 1, data_type := data_type_t.f32, format := memory_format_t.any } }

/-- A backward-data request of rank 4, ungrouped, all layouts unspecified,
with the given propagation kind and post-ops. -/
def bwd_data_req (pk : prop_kind_t) (po : post_ops_t) : gemm_convolution_bwd_data_t.pd_t :=
  { desc := cd4 pk, with_groups := false, post_ops_ := po,
    diff_src_pd_ := md4 memory_format_t.any, diff_dst_pd_ := md4 memory_format_t.any,
    weights_pd_ := md4 memory_format_t.any }

/-- A backward-weights request of rank 4, ungrouped, with bias, all layouts
unspecified, with the given propagation kind and post-ops. -/
def bwd_weights_req (pk : prop_kind_t) (po : post_ops_t) :
    gemm_convolution_bwd_weights_t.pd_t :=
  { desc := cd4 pk, with_groups := false, with_bias := true, post_ops_ := po,
    src_pd_ := md4 memory_format_t.any, diff_dst_pd_ := md4 memory_format_t.any,
    diff_weights_pd_ := md4 memory_format_t.any,
    diff_bias_pd_ := { ndims := 1, data_type := data_type_t.f32, format := memory_format_t.any } }

/-- The forward request `fwd_req []` with the src layout given explicitly. -/
def fwd_req_with_src (fmt : memory_format_t) : _gemm_convolution_fwd_t.pd_t :=
  { fwd_req [] with src_pd_ := md4 fmt }

/-- The backward-data request with the weights layout given explicitly. -/
def bwd_data_req_with_weights (fmt : memory_format_t) : gemm_convolution_bwd_data_t.pd_t :=
  { bwd_data_req prop_kind_t.backward_data [] with weights_pd_ := md4 fmt }

/-- The backward-weights request with the diff_dst layout given explicitly. -/
def bwd_weights_req_with_diff_dst (fmt : memory_format_t) :
    gemm_convolution_bwd_weights_t.pd_t :=
  { bwd_weights_req prop_kind_t.backward_weights [] with diff_dst_pd_ := md4 fmt }

/-- A configuration with batch 2, one group, a small output volume of 100 and
no depth axis. -/
def jcp_small : jit_gemm_conv_conf_t := { mb := 2, ngroups := 1, os := 100, od := 1 }

/-- A configuration with batch 2, one group, a large output volume of 4096 and
no depth axis. -/
def jcp_large : jit_gemm_conv_conf_t := { mb := 2, ngroups := 1, os := 4096, od := 1 }

/-- A configuration with batch 1 and two groups, output volume 100, no depth axis. -/
def jcp_single : jit_gemm_conv_conf_t := { mb := 1, ngroups := 2, os := 100, od := 1 }

/-! ## Theorems -/

/-! ### Basic facts shared by the proofs -/

theorem set_if_any_of_ne_any (sf : set_format_t) (d : memory_desc_t) (fmt : memory_format_t)
    (h : d.format ≠ memory_format_t.any) : set_if_any sf d fmt = (status_t.success, d) := by
  simp [set_if_any, h]

theorem fwd_sdp_frame (sf : set_format_t) (p : _gemm_convolution_fwd_t.pd_t) :
    (_gemm_convolution_fwd_t.pd_t.set_default_params sf p).2.cdesc_ = p.cdesc_
    ∧ (_gemm_convolution_fwd_t.pd_t.set_default_params sf p).2.with_groups = p.with_groups
    ∧ (_gemm_convolution_fwd_t.pd_t.set_default_params sf p).2.with_bias = p.with_bias
    ∧ (_gemm_convolution_fwd_t.pd_t.set_default_params sf p).2.post_ops_ = p.post_ops_ := by
  unfold _gemm_convolution_fwd_t.pd_t.set_default_params
  simp only []
  split_ifs <;> simp

theorem fwd_src_format_frame (sf : set_format_t) (p : _gemm_convolution_fwd_t.pd_t) :
    _gemm_convolution_fwd_t.pd_t.src_format
        (_gemm_convolution_fwd_t.pd_t.set_default_params sf p).2
      = _gemm_convolution_fwd_t.pd_t.src_format p := by
  simp [_gemm_convolution_fwd_t.pd_t.src_format, (fwd_sdp_frame sf p).1]

theorem fwd_wei_format_frame (sf : set_format_t) (p : _gemm_convolution_fwd_t.pd_t) :
    _gemm_convolution_fwd_t.pd_t.wei_format
        (_gemm_convolution_fwd_t.pd_t.set_default_params sf p).2
      = _gemm_convolution_fwd_t.pd_t.wei_format p := by
  simp [_gemm_convolution_fwd_t.pd_t.wei_format, (fwd_sdp_frame sf p).1,
    (fwd_sdp_frame sf p).2.1]

theorem fwd_init_snd (sf : set_format_t) (p : _gemm_convolution_fwd_t.pd_t) :
    (_gemm_convolution_fwd_t.pd_t.init sf p).2
      = (_gemm_convolution_fwd_t.pd_t.set_default_params sf p).2 := rfl

theorem fwd_init_success_iff (sf : set_format_t) (p : _gemm_convolution_fwd_t.pd_t) :
    (_gemm_convolution_fwd_t.pd_t.init sf p).1 = status_t.success ↔
      ((_gemm_convolution_fwd_t.pd_t.set_default_params sf p).1 = status_t.success
      ∧ (p.cdesc_.prop_kind = prop_kind_t.forward_training
          ∨ p.cdesc_.prop_kind = prop_kind_t.forward_inference)
      ∧ p.cdesc_.alg_kind = alg_kind_t.convolution_direct
      ∧ (p.cdesc_.src_desc.data_type = data_type_t.f32
          ∧ p.cdesc_.weights_desc.data_type = data_type_t.f32
          ∧ p.cdesc_.dst_desc.data_type = data_type_t.f32)
      ∧ (p.with_bias = true → p.cdesc_.bias_desc.data_type = data_type_t.f32)
      ∧ (_gemm_convolution_fwd_t.pd_t.set_default_params sf p).2.src_pd_.format
          = _gemm_convolution_fwd_t.pd_t.src_format p
      ∧ (_gemm_convolution_fwd_t.pd_t.set_default_params sf p).2.dst_pd_.format
          = _gemm_convolution_fwd_t.pd_t.src_format p
      ∧ (_gemm_convolution_fwd_t.pd_t.set_default_params sf p).2.weights_pd_.format
          = _gemm_convolution_fwd_t.pd_t.wei_format p
      ∧ _gemm_convolution_fwd_t.pd_t.is_gemm_conv_format p.post_ops_ = true) := by
  obtain ⟨h1, h2, h3, h4⟩ := fwd_sdp_frame sf p
  have h5 := fwd_src_format_frame sf p
  have h6 := fwd_wei_format_frame sf p
  unfold _gemm_convolution_fwd_t.pd_t.init
  simp only [h1, h2, h3, h4, h5, h6, utils.one_of, utils.everyone_is, utils.implication]
  constructor
  · intro h
    split_ifs at h with hok
    · simp only [Bool.and_eq_true, Bool.or_eq_true, beq_iff_eq, Bool.true_and,
        Bool.not_eq_true', decide_eq_true_eq] at hok
      obtain ⟨⟨⟨⟨⟨⟨⟨⟨a, b⟩, c⟩, d1, d2, d3⟩, e⟩, f⟩, g⟩, i⟩, j⟩ := hok
      refine ⟨a, b, c, ⟨d1.symm, d2.symm, d3.symm⟩, ?_, f, g, i, j⟩
      intro hb
      rcases e with e | e
      · simp [hb] at e
      · exact e.symm
  · rintro ⟨a, b, c, ⟨d1, d2, d3⟩, e, f, g, i, j⟩
    have hok : (true && (_gemm_convolution_fwd_t.pd_t.set_default_params sf p).1 == status_t.success
        && (p.cdesc_.prop_kind == prop_kind_t.forward_training
            || p.cdesc_.prop_kind == prop_kind_t.forward_inference)
        && p.cdesc_.alg_kind == alg_kind_t.convolution_direct
        && (data_type_t.f32 == p.cdesc_.src_desc.data_type
            && (data_type_t.f32 == p.cdesc_.weights_desc.data_type
              && data_type_t.f32 == p.cdesc_.dst_desc.data_type))
        && (!p.with_bias || data_type_t.f32 == p.cdesc_.bias_desc.data_type)
        && (_gemm_convolution_fwd_t.pd_t.set_default_params sf p).2.src_pd_.format
            == _gemm_convolution_fwd_t.pd_t.src_format p
        && (_gemm_convolution_fwd_t.pd_t.set_default_params sf p).2.dst_pd_.format
            == _gemm_convolution_fwd_t.pd_t.src_format p
        && (_gemm_convolution_fwd_t.pd_t.set_default_params sf p).2.weights_pd_.format
            == _gemm_convolution_fwd_t.pd_t.wei_format p
        && _gemm_convolution_fwd_t.pd_t.is_gemm_conv_format p.post_ops_) = true := by
      simp only [Bool.and_eq_true, Bool.or_eq_true, beq_iff_eq, Bool.true_and,
        Bool.not_eq_true', decide_eq_true_eq]
      refine ⟨⟨⟨⟨⟨⟨⟨⟨a, b⟩, c⟩, d1.symm, d2.symm, d3.symm⟩, ?_⟩, f⟩, g⟩, i⟩, j⟩
      cases hb : p.with_bias
      · exact Or.inl rfl
      · exact Or.inr (e hb).symm
    rw [if_pos hok]

theorem bwd_data_sdp_frame (sf : set_format_t) (p : gemm_convolution_bwd_data_t.pd_t) :
    (gemm_convolution_bwd_data_t.pd_t.set_default_params sf p).2.desc = p.desc
    ∧ (gemm_convolution_bwd_data_t.pd_t.set_default_params sf p).2.with_groups = p.with_groups
    ∧ (gemm_convolution_bwd_data_t.pd_t.set_default_params sf p).2.post_ops_ = p.post_ops_ := by
  unfold gemm_convolution_bwd_data_t.pd_t.set_default_params
  simp only []
  split_ifs <;> simp

theorem bwd_data_src_format_frame (sf : set_format_t) (p : gemm_convolution_bwd_data_t.pd_t) :
    gemm_convolution_bwd_data_t.pd_t.src_format
        (gemm_convolution_bwd_data_t.pd_t.set_default_params sf p).2
      = gemm_convolution_bwd_data_t.pd_t.src_format p := by
  simp [gemm_convolution_bwd_data_t.pd_t.src_format, (bwd_data_sdp_frame sf p).1]

theorem bwd_data_wei_format_frame (sf : set_format_t) (p : gemm_convolution_bwd_data_t.pd_t) :
    gemm_convolution_bwd_data_t.pd_t.wei_format
        (gemm_convolution_bwd_data_t.pd_t.set_default_params sf p).2
      = gemm_convolution_bwd_data_t.pd_t.wei_format p := by
  simp [gemm_convolution_bwd_data_t.pd_t.wei_format, (bwd_data_sdp_frame sf p).1,
    (bwd_data_sdp_frame sf p).2.1]

theorem bwd_data_init_success_iff (sf : set_format_t) (p : gemm_convolution_bwd_data_t.pd_t) :
    (gemm_convolution_bwd_data_t.pd_t.init sf p).1 = status_t.success ↔
      ((gemm_convolution_bwd_data_t.pd_t.set_default_params sf p).1 = status_t.success
      ∧ (p.desc.prop_kind = prop_kind_t.backward
          ∨ p.desc.prop_kind = prop_kind_t.backward_data)
      ∧ p.desc.alg_kind = alg_kind_t.convolution_direct
      ∧ (p.desc.diff_src_desc.data_type = data_type_t.f32
          ∧ p.desc.weights_desc.data_type = data_type_t.f32
          ∧ p.desc.diff_dst_desc.data_type = data_type_t.f32)
      ∧ (gemm_convolution_bwd_data_t.pd_t.set_default_params sf p).2.diff_src_pd_.format
          = gemm_convolution_bwd_data_t.pd_t.src_format p
      ∧ (gemm_convolution_bwd_data_t.pd_t.set_default_params sf p).2.diff_dst_pd_.format
          = gemm_convolution_bwd_data_t.pd_t.src_format p
      ∧ (gemm_convolution_bwd_data_t.pd_t.set_default_params sf p).2.weights_pd_.format
          = gemm_convolution_bwd_data_t.pd_t.wei_format p) := by
  obtain ⟨h1, h2, _⟩ := bwd_data_sdp_frame sf p
  have h5 := bwd_data_src_format_frame sf p
  have h6 := bwd_data_wei_format_frame sf p
  unfold gemm_convolution_bwd_data_t.pd_t.init
  simp only [h1, h2, h5, h6, utils.one_of, utils.everyone_is]
  constructor
  · intro h
    split_ifs at h with hok
    simp only [Bool.and_eq_true, Bool.or_eq_true, beq_iff_eq, Bool.true_and] at hok
    obtain ⟨⟨⟨⟨⟨⟨a, b⟩, c⟩, d1, d2, d3⟩, f⟩, g⟩, i⟩ := hok
    exact ⟨a, b, c, ⟨d1.symm, d2.symm, d3.symm⟩, f, g, i⟩
  · rintro ⟨a, b, c, ⟨d1, d2, d3⟩, f, g, i⟩
    have hok : (true && (gemm_convolution_bwd_data_t.pd_t.set_default_params sf p).1
          == status_t.success
        && (p.desc.prop_kind == prop_kind_t.backward
            || p.desc.prop_kind == prop_kind_t.backward_data)
        && p.desc.alg_kind == alg_kind_t.convolution_direct
        && (data_type_t.f32 == p.desc.diff_src_desc.data_type
            && (data_type_t.f32 == p.desc.weights_desc.data_type
              && data_type_t.f32 == p.desc.diff_dst_desc.data_type))
        && (gemm_convolution_bwd_data_t.pd_t.set_default_params sf p).2.diff_src_pd_.format
            == gemm_convolution_bwd_data_t.pd_t.src_format p
        && (gemm_convolution_bwd_data_t.pd_t.set_default_params sf p).2.diff_dst_pd_.format
            == gemm_convolution_bwd_data_t.pd_t.src_format p
        && (gemm_convolution_bwd_data_t.pd_t.set_default_params sf p).2.weights_pd_.format
            == gemm_convolution_bwd_data_t.pd_t.wei_format p) = true := by
      simp only [Bool.and_eq_true, Bool.or_eq_true, beq_iff_eq, Bool.true_and]
      exact ⟨⟨⟨⟨⟨⟨a, b⟩, c⟩, d1.symm, d2.symm, d3.symm⟩, f⟩, g⟩, i⟩
    rw [if_pos hok]

theorem bwd_weights_sdp_frame (sf : set_format_t) (p : gemm_convolution_bwd_weights_t.pd_t) :
    (gemm_convolution_bwd_weights_t.pd_t.set_default_params sf p).2.desc = p.desc
    ∧ (gemm_convolution_bwd_weights_t.pd_t.set_default_params sf p).2.with_groups
        = p.with_groups
    ∧ (gemm_convolution_bwd_weights_t.pd_t.set_default_params sf p).2.with_bias = p.with_bias
    ∧ (gemm_convolution_bwd_weights_t.pd_t.set_default_params sf p).2.post_ops_
        = p.post_ops_ := by
  unfold gemm_convolution_bwd_weights_t.pd_t.set_default_params
  simp only []
  split_ifs <;> simp

theorem bwd_weights_src_format_frame (sf : set_format_t)
    (p : gemm_convolution_bwd_weights_t.pd_t) :
    gemm_convolution_bwd_weights_t.pd_t.src_format
        (gemm_convolution_bwd_weights_t.pd_t.set_default_params sf p).2
      = gemm_convolution_bwd_weights_t.pd_t.src_format p := by
  simp [gemm_convolution_bwd_weights_t.pd_t.src_format, (bwd_weights_sdp_frame sf p).1]

theorem bwd_weights_wei_format_frame (sf : set_format_t)
    (p : gemm_convolution_bwd_weights_t.pd_t) :
    gemm_convolution_bwd_weights_t.pd_t.wei_format
        (gemm_convolution_bwd_weights_t.pd_t.set_default_params sf p).2
      = gemm_convolution_bwd_weights_t.pd_t.wei_format p := by
  simp [gemm_convolution_bwd_weights_t.pd_t.wei_format, (bwd_weights_sdp_frame sf p).1,
    (bwd_weights_sdp_frame sf p).2.1]

theorem bwd_weights_init_success_iff (sf : set_format_t)
    (p : gemm_convolution_bwd_weights_t.pd_t) :
    (gemm_convolution_bwd_weights_t.pd_t.init sf p).1 = status_t.success ↔
      ((gemm_convolution_bwd_weights_t.pd_t.set_default_params sf p).1 = status_t.success
      ∧ (p.desc.prop_kind = prop_kind_t.backward
          ∨ p.desc.prop_kind = prop_kind_t.backward_weights)
      ∧ p.desc.alg_kind = alg_kind_t.convolution_direct
      ∧ (p.desc.src_desc.data_type = data_type_t.f32
          ∧ p.desc.diff_weights_desc.data_type = data_type_t.f32
          ∧ p.desc.diff_dst_desc.data_type = data_type_t.f32)
      ∧ (p.with_bias = true → p.desc.diff_bias_desc.data_type = data_type_t.f32)
      ∧ (gemm_convolution_bwd_weights_t.pd_t.set_default_params sf p).2.src_pd_.format
          = gemm_convolution_bwd_weights_t.pd_t.src_format p
      ∧ (gemm_convolution_bwd_weights_t.pd_t.set_default_params sf p).2.diff_dst_pd_.format
          = gemm_convolution_bwd_weights_t.pd_t.src_format p
      ∧ (gemm_convolution_bwd_weights_t.pd_t.set_default_params sf p).2.diff_weights_pd_.format
          = gemm_convolution_bwd_weights_t.pd_t.wei_format p) := by
  obtain ⟨h1, h2, h3, _⟩ := bwd_weights_sdp_frame sf p
  have h5 := bwd_weights_src_format_frame sf p
  have h6 := bwd_weights_wei_format_frame sf p
  unfold gemm_convolution_bwd_weights_t.pd_t.init
  simp only [h1, h2, h3, h5, h6, utils.one_of, utils.everyone_is, utils.implication]
  constructor
  · intro h
    split_ifs at h with hok
    simp only [Bool.and_eq_true, Bool.or_eq_true, beq_iff_eq, Bool.true_and,
      Bool.not_eq_true', decide_eq_true_eq] at hok
    obtain ⟨⟨⟨⟨⟨⟨⟨a, b⟩, c⟩, d1, d2, d3⟩, e⟩, f⟩, g⟩, i⟩ := hok
    refine ⟨a, b, c, ⟨d1.symm, d2.symm, d3.symm⟩, ?_, f, g, i⟩
    intro hb
    rcases e with e | e
    · simp [hb] at e
    · exact e.symm
  · rintro ⟨a, b, c, ⟨d1, d2, d3⟩, e, f, g, i⟩
    have hok : (true && (gemm_convolution_bwd_weights_t.pd_t.set_default_params sf p).1
          == status_t.success
        && (p.desc.prop_kind == prop_kind_t.backward
            || p.desc.prop_kind == prop_kind_t.backward_weights)
        && p.desc.alg_kind == alg_kind_t.convolution_direct
        && (data_type_t.f32 == p.desc.src_desc.data_type
            && (data_type_t.f32 == p.desc.diff_weights_desc.data_type
              && data_type_t.f32 == p.desc.diff_dst_desc.data_type))
        && (!p.with_bias || data_type_t.f32 == p.desc.diff_bias_desc.data_type)
        && (gemm_convolution_bwd_weights_t.pd_t.set_default_params sf p).2.src_pd_.format
            == gemm_convolution_bwd_weights_t.pd_t.src_format p
        && (gemm_convolution_bwd_weights_t.pd_t.set_default_params sf p).2.diff_dst_pd_.format
            == gemm_convolution_bwd_weights_t.pd_t.src_format p
        && (gemm_convolution_bwd_weights_t.pd_t.set_default_params sf p).2.diff_weights_pd_.format
            == gemm_convolution_bwd_weights_t.pd_t.wei_format p) = true := by
      simp only [Bool.and_eq_true, Bool.or_eq_true, beq_iff_eq, Bool.true_and,
        Bool.not_eq_true', decide_eq_true_eq]
      refine ⟨⟨⟨⟨⟨⟨⟨a, b⟩, c⟩, d1.symm, d2.symm, d3.symm⟩, ?_⟩, f⟩, g⟩, i⟩
      cases hb : p.with_bias
      · exact Or.inl rfl
      · exact Or.inr (e hb).symm
    rw [if_pos hok]

theorem fwd_init_status_cases (sf : set_format_t) (p : _gemm_convolution_fwd_t.pd_t) :
    (_gemm_convolution_fwd_t.pd_t.init sf p).1 = status_t.success
      ∨ (_gemm_convolution_fwd_t.pd_t.init sf p).1 = status_t.unimplemented := by
  unfold _gemm_convolution_fwd_t.pd_t.init
  simp only []
  split_ifs
  · exact Or.inl rfl
  · exact Or.inr rfl

theorem bwd_data_init_status_cases (sf : set_format_t) (p : gemm_convolution_bwd_data_t.pd_t) :
    (gemm_convolution_bwd_data_t.pd_t.init sf p).1 = status_t.success
      ∨ (gemm_convolution_bwd_data_t.pd_t.init sf p).1 = status_t.unimplemented := by
  unfold gemm_convolution_bwd_data_t.pd_t.init
  simp only []
  split_ifs
  · exact Or.inl rfl
  · exact Or.inr rfl

theorem bwd_weights_init_status_cases (sf : set_format_t)
    (p : gemm_convolution_bwd_weights_t.pd_t) :
    (gemm_convolution_bwd_weights_t.pd_t.init sf p).1 = status_t.success
      ∨ (gemm_convolution_bwd_weights_t.pd_t.init sf p).1 = status_t.unimplemented := by
  unfold gemm_convolution_bwd_weights_t.pd_t.init
  simp only []
  split_ifs
  · exact Or.inl rfl
  · exact Or.inr rfl

theorem entry_not_is_sum_of_is_relu (e : entry_t) (h : e.is_relu = true) : e.is_sum = false := by
  simp only [entry_t.is_relu, Bool.and_eq_true, beq_iff_eq] at h
  simp [entry_t.is_sum, h.1]

theorem entry_is_sum_iff (e : entry_t) : e.is_sum = true ↔ e.kind = primitive_kind_t.sum := by
  simp [entry_t.is_sum]

theorem gemm_conv_format_spec (po : post_ops_t) :
    _gemm_convolution_fwd_t.pd_t.is_gemm_conv_format po = true ↔
      (po = []
        ∨ (∃ e, po = [e] ∧ e.is_relu = true)
        ∨ (∃ e, po = [e] ∧ e.is_sum = true)
        ∨ (∃ a b, po = [a, b] ∧ a.is_sum = true ∧ b.is_relu = true)) := by
  match po with
  | [] => simp [_gemm_convolution_fwd_t.pd_t.is_gemm_conv_format, post_ops_t.len_]
  | [e] =>
    simp [_gemm_convolution_fwd_t.pd_t.is_gemm_conv_format, post_ops_t.len_, post_ops_t.entry_]
  | [a, b] =>
    simp only [_gemm_convolution_fwd_t.pd_t.is_gemm_conv_format, post_ops_t.len_,
      post_ops_t.entry_, List.length_cons, List.length_nil, List.getD_cons_zero,
      List.getD_cons_succ, Bool.true_and, Bool.and_eq_true]
    constructor
    · intro h
      exact Or.inr (Or.inr (Or.inr ⟨a, b, rfl, h.1, h.2⟩))
    · rintro (h | ⟨e, h, _⟩ | ⟨e, h, _⟩ | ⟨x, y, h, hx, hy⟩)
      · cases h
      · cases h
      · cases h
      · cases h
        exact ⟨hx, hy⟩
  | a :: b :: c :: rest =>
    simp [_gemm_convolution_fwd_t.pd_t.is_gemm_conv_format, post_ops_t.len_]

theorem findFrom_none (k : primitive_kind_t) (l : List entry_t) (idx : Int)
    (h : ∀ e ∈ l, e.kind ≠ k) : post_ops_t.findFrom k l idx = -1 := by
  induction l generalizing idx with
  | nil => rfl
  | cons e rest ih =>
    have he : e.kind ≠ k := h e (List.mem_cons_self e rest)
    have hr : ∀ x ∈ rest, x.kind ≠ k := fun x hx => h x (List.mem_cons_of_mem e hx)
    simp [post_ops_t.findFrom, he, ih (idx + 1) hr]

theorem findFrom_first (k : primitive_kind_t) (l : List entry_t) (idx : Int) (i : Nat)
    (hi : i < l.length) (hk : (l.getD i default).kind = k)
    (hfirst : ∀ j, j < i → (l.getD j default).kind ≠ k) :
    post_ops_t.findFrom k l idx = idx + i := by
  induction l generalizing idx i with
  | nil => simp at hi
  | cons e rest ih =>
    cases i with
    | zero =>
      simp only [List.getD_cons_zero] at hk
      simp [post_ops_t.findFrom, hk]
    | succ n =>
      have he : e.kind ≠ k := by
        have := hfirst 0 (Nat.succ_pos n)
        simpa using this
      have hn : n < rest.length := by
        simp only [List.length_cons] at hi
        omega
      have hk2 : (rest.getD n default).kind = k := by
        simpa using hk
      have hf2 : ∀ j, j < n → (rest.getD j default).kind ≠ k := by
        intro j hj
        have := hfirst (j + 1) (by omega)
        simpa using this
      have := ih (idx + 1) n hn hk2 hf2
      simp only [post_ops_t.findFrom, beq_iff_eq, he, if_false, this]
      push_cast
      ring

theorem set_if_any_stores (sf : set_format_t)
    (hsf : ∀ d fmt, sf d fmt = (status_t.success, { d with format := fmt }))
    (d : memory_desc_t) (fmt : memory_format_t) :
    set_if_any sf d fmt =
      (status_t.success, if d.format = memory_format_t.any then { d with format := fmt } else d) := by
  unfold set_if_any
  by_cases h : d.format = memory_format_t.any <;> simp [h, hsf]

theorem fwd_sdp_stores (sf : set_format_t)
    (hsf : ∀ d fmt, sf d fmt = (status_t.success, { d with format := fmt }))
    (p : _gemm_convolution_fwd_t.pd_t) :
    (_gemm_convolution_fwd_t.pd_t.set_default_params sf p).1 = status_t.success
    ∧ (_gemm_convolution_fwd_t.pd_t.set_default_params sf p).2.src_pd_
        = (if p.src_pd_.format = memory_format_t.any
            then { p.src_pd_ with format := _gemm_convolution_fwd_t.pd_t.src_format p }
            else p.src_pd_)
    ∧ (_gemm_convolution_fwd_t.pd_t.set_default_params sf p).2.dst_pd_
        = (if p.dst_pd_.format = memory_format_t.any
            then { p.dst_pd_ with format := _gemm_convolution_fwd_t.pd_t.src_format p }
            else p.dst_pd_)
    ∧ (_gemm_convolution_fwd_t.pd_t.set_default_params sf p).2.weights_pd_
        = (if p.weights_pd_.format = memory_format_t.any
            then { p.weights_pd_ with format := _gemm_convolution_fwd_t.pd_t.wei_format p }
            else p.weights_pd_)
    ∧ (_gemm_convolution_fwd_t.pd_t.set_default_params sf p).2.bias_pd_
        = (if p.bias_pd_.format = memory_format_t.any
            then { p.bias_pd_ with format := memory_format_t.x }
            else p.bias_pd_) := by
  unfold _gemm_convolution_fwd_t.pd_t.set_default_params
  simp [set_if_any_stores sf hsf, _gemm_convolution_fwd_t.pd_t.src_format,
    _gemm_convolution_fwd_t.pd_t.wei_format]

theorem fwd_src_format_eq (p : _gemm_convolution_fwd_t.pd_t) :
    _gemm_convolution_fwd_t.pd_t.src_format p
      = (if p.cdesc_.src_desc.ndims = 4 then memory_format_t.nchw else memory_format_t.ncdhw) := by
  simp [_gemm_convolution_fwd_t.pd_t.src_format]

theorem fwd_wei_format_eq (p : _gemm_convolution_fwd_t.pd_t) :
    _gemm_convolution_fwd_t.pd_t.wei_format p
      = (if p.cdesc_.src_desc.ndims = 4
          then (if p.with_groups = true then memory_format_t.goihw else memory_format_t.oihw)
          else (if p.with_groups = true then memory_format_t.goidhw
                else memory_format_t.oidhw)) := by
  simp [_gemm_convolution_fwd_t.pd_t.wei_format]

theorem fwd_src_format_ne_any (p : _gemm_convolution_fwd_t.pd_t) :
    _gemm_convolution_fwd_t.pd_t.src_format p ≠ memory_format_t.any := by
  rw [fwd_src_format_eq]
  split_ifs <;> simp

theorem fwd_wei_format_ne_any (p : _gemm_convolution_fwd_t.pd_t) :
    _gemm_convolution_fwd_t.pd_t.wei_format p ≠ memory_format_t.any := by
  rw [fwd_wei_format_eq]
  split_ifs <;> simp

theorem fwd_sdp_keep (sf : set_format_t) (p : _gemm_convolution_fwd_t.pd_t) :
    (p.src_pd_.format ≠ memory_format_t.any →
        (_gemm_convolution_fwd_t.pd_t.set_default_params sf p).2.src_pd_ = p.src_pd_)
    ∧ (p.dst_pd_.format ≠ memory_format_t.any →
        (_gemm_convolution_fwd_t.pd_t.set_default_params sf p).2.dst_pd_ = p.dst_pd_)
    ∧ (p.weights_pd_.format ≠ memory_format_t.any →
        (_gemm_convolution_fwd_t.pd_t.set_default_params sf p).2.weights_pd_ = p.weights_pd_)
    ∧ (p.bias_pd_.format ≠ memory_format_t.any →
        (_gemm_convolution_fwd_t.pd_t.set_default_params sf p).2.bias_pd_ = p.bias_pd_) := by
  unfold _gemm_convolution_fwd_t.pd_t.set_default_params
  simp only []
  refine ⟨fun h => ?_, fun h => ?_, fun h => ?_, fun h => ?_⟩ <;>
    split_ifs <;> simp [set_if_any_of_ne_any sf _ _ h]

theorem bwd_data_sdp_keep (sf : set_format_t) (p : gemm_convolution_bwd_data_t.pd_t) :
    (p.diff_src_pd_.format ≠ memory_format_t.any →
        (gemm_convolution_bwd_data_t.pd_t.set_default_params sf p).2.diff_src_pd_
          = p.diff_src_pd_)
    ∧ (p.diff_dst_pd_.format ≠ memory_format_t.any →
        (gemm_convolution_bwd_data_t.pd_t.set_default_params sf p).2.diff_dst_pd_
          = p.diff_dst_pd_)
    ∧ (p.weights_pd_.format ≠ memory_format_t.any →
        (gemm_convolution_bwd_data_t.pd_t.set_default_params sf p).2.weights_pd_
          = p.weights_pd_) := by
  unfold gemm_convolution_bwd_data_t.pd_t.set_default_params
  simp only []
  refine ⟨fun h => ?_, fun h => ?_, fun h => ?_⟩ <;>
    split_ifs <;> simp [set_if_any_of_ne_any sf _ _ h]

theorem bwd_weights_sdp_keep (sf : set_format_t) (p : gemm_convolution_bwd_weights_t.pd_t) :
    (p.src_pd_.format ≠ memory_format_t.any →
        (gemm_convolution_bwd_weights_t.pd_t.set_default_params sf p).2.src_pd_ = p.src_pd_)
    ∧ (p.diff_dst_pd_.format ≠ memory_format_t.any →
        (gemm_convolution_bwd_weights_t.pd_t.set_default_params sf p).2.diff_dst_pd_
          = p.diff_dst_pd_)
    ∧ (p.diff_weights_pd_.format ≠ memory_format_t.any →
        (gemm_convolution_bwd_weights_t.pd_t.set_default_params sf p).2.diff_weights_pd_
          = p.diff_weights_pd_)
    ∧ (p.diff_bias_pd_.format ≠ memory_format_t.any →
        (gemm_convolution_bwd_weights_t.pd_t.set_default_params sf p).2.diff_bias_pd_
          = p.diff_bias_pd_) := by
  unfold gemm_convolution_bwd_weights_t.pd_t.set_default_params
  simp only []
  refine ⟨fun h => ?_, fun h => ?_, fun h => ?_, fun h => ?_⟩ <;>
    split_ifs <;> simp [set_if_any_of_ne_any sf _ _ h]

theorem bwd_data_init_snd (sf : set_format_t) (p : gemm_convolution_bwd_data_t.pd_t) :
    (gemm_convolution_bwd_data_t.pd_t.init sf p).2
      = (gemm_convolution_bwd_data_t.pd_t.set_default_params sf p).2 := rfl

theorem bwd_weights_init_snd (sf : set_format_t) (p : gemm_convolution_bwd_weights_t.pd_t) :
    (gemm_convolution_bwd_weights_t.pd_t.init sf p).2
      = (gemm_convolution_bwd_weights_t.pd_t.set_default_params sf p).2 := rfl

theorem bwd_data_src_format_eq (p : gemm_convolution_bwd_data_t.pd_t) :
    gemm_convolution_bwd_data_t.pd_t.src_format p
      = (if p.desc.diff_src_desc.ndims = 4 then memory_format_t.nchw
         else memory_format_t.ncdhw) := by
  simp [gemm_convolution_bwd_data_t.pd_t.src_format]

theorem bwd_data_wei_format_eq (p : gemm_convolution_bwd_data_t.pd_t) :
    gemm_convolution_bwd_data_t.pd_t.wei_format p
      = (if p.desc.diff_src_desc.ndims = 4
          then (if p.with_groups = true then memory_format_t.goihw else memory_format_t.oihw)
          else (if p.with_groups = true then memory_format_t.goidhw
                else memory_format_t.oidhw)) := by
  simp [gemm_convolution_bwd_data_t.pd_t.wei_format]

theorem bwd_weights_src_format_eq (p : gemm_convolution_bwd_weights_t.pd_t) :
    gemm_convolution_bwd_weights_t.pd_t.src_format p
      = (if p.desc.src_desc.ndims = 4 then memory_format_t.nchw
         else memory_format_t.ncdhw) := by
  simp [gemm_convolution_bwd_weights_t.pd_t.src_format]

theorem bwd_weights_wei_format_eq (p : gemm_convolution_bwd_weights_t.pd_t) :
    gemm_convolution_bwd_weights_t.pd_t.wei_format p
      = (if p.desc.src_desc.ndims = 4
          then (if p.with_groups = true then memory_format_t.goihw else memory_format_t.oihw)
          else (if p.with_groups = true then memory_format_t.goidhw
                else memory_format_t.oidhw)) := by
  simp [gemm_convolution_bwd_weights_t.pd_t.wei_format]

theorem format_any_or_of_resolved (d d2 : memory_desc_t)
    (c : memory_format_t) (hkeep : d.format ≠ memory_format_t.any → d2 = d)
    (hres : d2.format = c) : d.format = memory_format_t.any ∨ d.format = c := by
  by_cases h : d.format = memory_format_t.any
  · exact Or.inl h
  · right
    rw [← hkeep h]
    exact hres

theorem bwd_data_init_post_ops (sf : set_format_t) (p : gemm_convolution_bwd_data_t.pd_t)
    (po : post_ops_t) :
    (gemm_convolution_bwd_data_t.pd_t.init sf { p with post_ops_ := po }).1
      = (gemm_convolution_bwd_data_t.pd_t.init sf p).1 := by
  have hsdp : gemm_convolution_bwd_data_t.pd_t.set_default_params sf { p with post_ops_ := po }
      = ((gemm_convolution_bwd_data_t.pd_t.set_default_params sf p).1,
          { (gemm_convolution_bwd_data_t.pd_t.set_default_params sf p).2
              with post_ops_ := po }) := by
    unfold gemm_convolution_bwd_data_t.pd_t.set_default_params
    simp only [gemm_convolution_bwd_data_t.pd_t.src_format,
      gemm_convolution_bwd_data_t.pd_t.wei_format]
    split_ifs <;> rfl
  unfold gemm_convolution_bwd_data_t.pd_t.init
  simp only [hsdp, gemm_convolution_bwd_data_t.pd_t.src_format,
    gemm_convolution_bwd_data_t.pd_t.wei_format]

theorem bwd_weights_init_post_ops (sf : set_format_t)
    (p : gemm_convolution_bwd_weights_t.pd_t) (po : post_ops_t) :
    (gemm_convolution_bwd_weights_t.pd_t.init sf { p with post_ops_ := po }).1
      = (gemm_convolution_bwd_weights_t.pd_t.init sf p).1 := by
  have hsdp : gemm_convolution_bwd_weights_t.pd_t.set_default_params sf
        { p with post_ops_ := po }
      = ((gemm_convolution_bwd_weights_t.pd_t.set_default_params sf p).1,
          { (gemm_convolution_bwd_weights_t.pd_t.set_default_params sf p).2
              with post_ops_ := po }) := by
    unfold gemm_convolution_bwd_weights_t.pd_t.set_default_params
    simp only [gemm_convolution_bwd_weights_t.pd_t.src_format,
      gemm_convolution_bwd_weights_t.pd_t.wei_format]
    split_ifs <;> rfl
  unfold gemm_convolution_bwd_weights_t.pd_t.init
  simp only [hsdp, gemm_convolution_bwd_weights_t.pd_t.src_format,
    gemm_convolution_bwd_weights_t.pd_t.wei_format]

theorem c_div_of_pos (a b : Int) (hb : 1 ≤ b) : c_div a b = some (Int.tdiv a b) := by
  unfold c_div
  have h0 : b ≠ 0 := by omega
  have h1 : b ≠ -1 := by omega
  simp [h0, h1]

theorem c_div_share (a b : Int) (ha : 0 ≤ a) (hb : 1 ≤ b) : c_div a b = some (a / b) := by
  rw [c_div_of_pos a b hb, Int.tdiv_eq_ediv ha (by omega)]

theorem share_lt_iff (a b k : Int) (hb : 1 ≤ b) : a / b < k ↔ a < k * b :=
  Int.ediv_lt_iff_lt_mul (by omega)

theorem fwd_nthr_of_share (jcp : jit_gemm_conv_conf_t) (t share : Int)
    (h : c_div jcp.os t = some share) :
    _gemm_convolution_fwd_t.nthr_ jcp t
      = some (if share < 512 ∧ (jcp.od = 1 → jcp.mb ≠ 1 ∨ jcp.ngroups > 2) then t else 1) := by
  unfold _gemm_convolution_fwd_t.nthr_
  rw [h]
  simp only [utils.implication]
  by_cases h1 : share < 512 <;> by_cases h2 : jcp.od = 1 <;> by_cases h3 : jcp.mb = 1 <;>
    by_cases h4 : jcp.ngroups > 2 <;> simp [h1, h2, h3, h4]

theorem bwd_weights_nthr_of_share (jcp : jit_gemm_conv_conf_t) (t share : Int)
    (h : c_div jcp.os t = some share) :
    gemm_convolution_bwd_weights_t.nthr_ jcp t
      = some (if share < 256 ∧ (jcp.mb ≠ 1 ∨ jcp.ngroups > 2) then t else 1) := by
  unfold gemm_convolution_bwd_weights_t.nthr_
  rw [h]
  by_cases h1 : share < 256 <;> by_cases h3 : jcp.mb = 1 <;>
    by_cases h4 : jcp.ngroups > 2 <;> simp [h1, h3, h4]

theorem bwd_data_nthr_eq (jcp : jit_gemm_conv_conf_t) (t : Int) :
    gemm_convolution_bwd_data_t.nthr_ jcp t
      = (if jcp.mb ≠ 1 ∨ jcp.ngroups > 2 then t else 1) := by
  unfold gemm_convolution_bwd_data_t.nthr_
  by_cases h3 : jcp.mb = 1 <;> by_cases h4 : jcp.ngroups > 2 <;> simp [h3, h4]

theorem fwd_nthr_share_of_some (jcp : jit_gemm_conv_conf_t) (t n : Int)
    (h : _gemm_convolution_fwd_t.nthr_ jcp t = some n) :
    ∃ share, c_div jcp.os t = some share := by
  cases hc : c_div jcp.os t with
  | none => simp [_gemm_convolution_fwd_t.nthr_, hc] at h
  | some share => exact ⟨share, rfl⟩

theorem bwd_weights_nthr_share_of_some (jcp : jit_gemm_conv_conf_t) (t n : Int)
    (h : gemm_convolution_bwd_weights_t.nthr_ jcp t = some n) :
    ∃ share, c_div jcp.os t = some share := by
  cases hc : c_div jcp.os t with
  | none => simp [gemm_convolution_bwd_weights_t.nthr_, hc] at h
  | some share => exact ⟨share, rfl⟩

theorem set_if_any_rank_type (sf : set_format_t)
    (hp : ∀ d fmt, (sf d fmt).2.ndims = d.ndims ∧ (sf d fmt).2.data_type = d.data_type)
    (d : memory_desc_t) (fmt : memory_format_t) :
    (set_if_any sf d fmt).2.ndims = d.ndims
    ∧ (set_if_any sf d fmt).2.data_type = d.data_type := by
  unfold set_if_any
  split_ifs
  · exact hp d fmt
  · exact ⟨rfl, rfl⟩

theorem fwd_sdp_rank_type (sf : set_format_t)
    (hp : ∀ d fmt, (sf d fmt).2.ndims = d.ndims ∧ (sf d fmt).2.data_type = d.data_type)
    (p : _gemm_convolution_fwd_t.pd_t) :
    (_gemm_convolution_fwd_t.pd_t.set_default_params sf p).2.src_pd_.ndims = p.src_pd_.ndims
    ∧ (_gemm_convolution_fwd_t.pd_t.set_default_params sf p).2.src_pd_.data_type = p.src_pd_.data_type
    ∧ (_gemm_convolution_fwd_t.pd_t.set_default_params sf p).2.dst_pd_.ndims = p.dst_pd_.ndims
    ∧ (_gemm_convolution_fwd_t.pd_t.set_default_params sf p).2.dst_pd_.data_type = p.dst_pd_.data_type
    ∧ (_gemm_convolution_fwd_t.pd_t.set_default_params sf p).2.weights_pd_.ndims = p.weights_pd_.ndims
    ∧ (_gemm_convolution_fwd_t.pd_t.set_default_params sf p).2.weights_pd_.data_type = p.weights_pd_.data_type
    ∧ (_gemm_convolution_fwd_t.pd_t.set_default_params sf p).2.bias_pd_.ndims = p.bias_pd_.ndims
    ∧ (_gemm_convolution_fwd_t.pd_t.set_default_params sf p).2.bias_pd_.data_type = p.bias_pd_.data_type := by
  have hs := set_if_any_rank_type sf hp
  unfold _gemm_convolution_fwd_t.pd_t.set_default_params
  simp only []
  split_ifs <;> simp [hs]

theorem fwd_sdp_fixed (sf : set_format_t) (p : _gemm_convolution_fwd_t.pd_t)
    (h0 : p.src_pd_.format ≠ memory_format_t.any)
    (h1 : p.dst_pd_.format ≠ memory_format_t.any)
    (h2 : p.weights_pd_.format ≠ memory_format_t.any)
    (h3 : p.bias_pd_.format ≠ memory_format_t.any) :
    _gemm_convolution_fwd_t.pd_t.set_default_params sf p = (status_t.success, p) := by
  unfold _gemm_convolution_fwd_t.pd_t.set_default_params
  simp [set_if_any_of_ne_any sf _ _ h0, set_if_any_of_ne_any sf _ _ h1, set_if_any_of_ne_any sf _ _ h2, set_if_any_of_ne_any sf _ _ h3]

theorem bwd_data_sdp_rank_type (sf : set_format_t)
    (hp : ∀ d fmt, (sf d fmt).2.ndims = d.ndims ∧ (sf d fmt).2.data_type = d.data_type)
    (p : gemm_convolution_bwd_data_t.pd_t) :
    (gemm_convolution_bwd_data_t.pd_t.set_default_params sf p).2.diff_src_pd_.ndims = p.diff_src_pd_.ndims
    ∧ (gemm_convolution_bwd_data_t.pd_t.set_default_params sf p).2.diff_src_pd_.data_type = p.diff_src_pd_.data_type
    ∧ (gemm_convolution_bwd_data_t.pd_t.set_default_params sf p).2.diff_dst_pd_.ndims = p.diff_dst_pd_.ndims
    ∧ (gemm_convolution_bwd_data_t.pd_t.set_default_params sf p).2.diff_dst_pd_.data_type = p.diff_dst_pd_.data_type
    ∧ (gemm_convolution_bwd_data_t.pd_t.set_default_params sf p).2.weights_pd_.ndims = p.weights_pd_.ndims
    ∧ (gemm_convolution_bwd_data_t.pd_t.set_default_params sf p).2.weights_pd_.data_type = p.weights_pd_.data_type := by
  have hs := set_if_any_rank_type sf hp
  unfold gemm_convolution_bwd_data_t.pd_t.set_default_params
  simp only []
  split_ifs <;> simp [hs]

theorem bwd_data_sdp_fixed (sf : set_format_t) (p : gemm_convolution_bwd_data_t.pd_t)
    (h0 : p.diff_src_pd_.format ≠ memory_format_t.any)
    (h1 : p.diff_dst_pd_.format ≠ memory_format_t.any)
    (h2 : p.weights_pd_.format ≠ memory_format_t.any) :
    gemm_convolution_bwd_data_t.pd_t.set_default_params sf p = (status_t.success, p) := by
  unfold gemm_convolution_bwd_data_t.pd_t.set_default_params
  simp [set_if_any_of_ne_any sf _ _ h0, set_if_any_of_ne_any sf _ _ h1, set_if_any_of_ne_any sf _ _ h2]

theorem bwd_weights_sdp_rank_type (sf : set_format_t)
    (hp : ∀ d fmt, (sf d fmt).2.ndims = d.ndims ∧ (sf d fmt).2.data_type = d.data_type)
    (p : gemm_convolution_bwd_weights_t.pd_t) :
    (gemm_convolution_bwd_weights_t.pd_t.set_default_params sf p).2.src_pd_.ndims = p.src_pd_.ndims
    ∧ (gemm_convolution_bwd_weights_t.pd_t.set_default_params sf p).2.src_pd_.data_type = p.src_pd_.data_type
    ∧ (gemm_convolution_bwd_weights_t.pd_t.set_default_params sf p).2.diff_dst_pd_.ndims = p.diff_dst_pd_.ndims
    ∧ (gemm_convolution_bwd_weights_t.pd_t.set_default_params sf p).2.diff_dst_pd_.data_type = p.diff_dst_pd_.data_type
    ∧ (gemm_convolution_bwd_weights_t.pd_t.set_default_params sf p).2.diff_weights_pd_.ndims = p.diff_weights_pd_.ndims
    ∧ (gemm_convolution_bwd_weights_t.pd_t.set_default_params sf p).2.diff_weights_pd_.data_type = p.diff_weights_pd_.data_type
    ∧ (gemm_convolution_bwd_weights_t.pd_t.set_default_params sf p).2.diff_bias_pd_.ndims = p.diff_bias_pd_.ndims
    ∧ (gemm_convolution_bwd_weights_t.pd_t.set_default_params sf p).2.diff_bias_pd_.data_type = p.diff_bias_pd_.data_type := by
  have hs := set_if_any_rank_type sf hp
  unfold gemm_convolution_bwd_weights_t.pd_t.set_default_params
  simp only []
  split_ifs <;> simp [hs]

theorem bwd_weights_sdp_fixed (sf : set_format_t) (p : gemm_convolution_bwd_weights_t.pd_t)
    (h0 : p.src_pd_.format ≠ memory_format_t.any)
    (h1 : p.diff_dst_pd_.format ≠ memory_format_t.any)
    (h2 : p.diff_weights_pd_.format ≠ memory_format_t.any)
    (h3 : p.diff_bias_pd_.format ≠ memory_format_t.any) :
    gemm_convolution_bwd_weights_t.pd_t.set_default_params sf p = (status_t.success, p) := by
  unfold gemm_convolution_bwd_weights_t.pd_t.set_default_params
  simp [set_if_any_of_ne_any sf _ _ h0, set_if_any_of_ne_any sf _ _ h1, set_if_any_of_ne_any sf _ _ h2, set_if_any_of_ne_any sf _ _ h3]

theorem bwd_data_sdp_stores (sf : set_format_t)
    (hsf : ∀ d fmt, sf d fmt = (status_t.success, { d with format := fmt }))
    (p : gemm_convolution_bwd_data_t.pd_t) :
    (gemm_convolution_bwd_data_t.pd_t.set_default_params sf p).1 = status_t.success
    ∧ (gemm_convolution_bwd_data_t.pd_t.set_default_params sf p).2.diff_src_pd_
        = (if p.diff_src_pd_.format = memory_format_t.any
            then { p.diff_src_pd_ with format := gemm_convolution_bwd_data_t.pd_t.src_format p }
            else p.diff_src_pd_)
    ∧ (gemm_convolution_bwd_data_t.pd_t.set_default_params sf p).2.diff_dst_pd_
        = (if p.diff_dst_pd_.format = memory_format_t.any
            then { p.diff_dst_pd_ with format := gemm_convolution_bwd_data_t.pd_t.src_format p }
            else p.diff_dst_pd_)
    ∧ (gemm_convolution_bwd_data_t.pd_t.set_default_params sf p).2.weights_pd_
        = (if p.weights_pd_.format = memory_format_t.any
            then { p.weights_pd_ with format := gemm_convolution_bwd_data_t.pd_t.wei_format p }
            else p.weights_pd_) := by
  unfold gemm_convolution_bwd_data_t.pd_t.set_default_params
  simp [set_if_any_stores sf hsf, gemm_convolution_bwd_data_t.pd_t.src_format,
    gemm_convolution_bwd_data_t.pd_t.wei_format]

theorem bwd_data_src_format_ne_any (p : gemm_convolution_bwd_data_t.pd_t) :
    gemm_convolution_bwd_data_t.pd_t.src_format p ≠ memory_format_t.any := by
  rw [bwd_data_src_format_eq]
  split_ifs <;> simp

theorem bwd_data_wei_format_ne_any (p : gemm_convolution_bwd_data_t.pd_t) :
    gemm_convolution_bwd_data_t.pd_t.wei_format p ≠ memory_format_t.any := by
  rw [bwd_data_wei_format_eq]
  split_ifs <;> simp

theorem bwd_weights_sdp_stores (sf : set_format_t)
    (hsf : ∀ d fmt, sf d fmt = (status_t.success, { d with format := fmt }))
    (p : gemm_convolution_bwd_weights_t.pd_t) :
    (gemm_convolution_bwd_weights_t.pd_t.set_default_params sf p).1 = status_t.success
    ∧ (gemm_convolution_bwd_weights_t.pd_t.set_default_params sf p).2.src_pd_
        = (if p.src_pd_.format = memory_format_t.any
            then { p.src_pd_ with format := gemm_convolution_bwd_weights_t.pd_t.src_format p }
            else p.src_pd_)
    ∧ (gemm_convolution_bwd_weights_t.pd_t.set_default_params sf p).2.diff_dst_pd_
        = (if p.diff_dst_pd_.format = memory_format_t.any
            then { p.diff_dst_pd_ with format := gemm_convolution_bwd_weights_t.pd_t.src_format p }
            else p.diff_dst_pd_)
    ∧ (gemm_convolution_bwd_weights_t.pd_t.set_default_params sf p).2.diff_weights_pd_
        = (if p.diff_weights_pd_.format = memory_format_t.any
            then { p.diff_weights_pd_ with format := gemm_convolution_bwd_weights_t.pd_t.wei_format p }
            else p.diff_weights_pd_)
    ∧ (gemm_convolution_bwd_weights_t.pd_t.set_default_params sf p).2.diff_bias_pd_
        = (if p.diff_bias_pd_.format = memory_format_t.any
            then { p.diff_bias_pd_ with format := memory_format_t.x }
            else p.diff_bias_pd_) := by
  unfold gemm_convolution_bwd_weights_t.pd_t.set_default_params
  simp [set_if_any_stores sf hsf, gemm_convolution_bwd_weights_t.pd_t.src_format,
    gemm_convolution_bwd_weights_t.pd_t.wei_format]

theorem bwd_weights_src_format_ne_any (p : gemm_convolution_bwd_weights_t.pd_t) :
    gemm_convolution_bwd_weights_t.pd_t.src_format p ≠ memory_format_t.any := by
  rw [bwd_weights_src_format_eq]
  split_ifs <;> simp

theorem bwd_weights_wei_format_ne_any (p : gemm_convolution_bwd_weights_t.pd_t) :
    gemm_convolution_bwd_weights_t.pd_t.wei_format p ≠ memory_format_t.any := by
  rw [bwd_weights_wei_format_eq]
  split_ifs <;> simp

theorem stored_format_ne_any (d : memory_desc_t) (fmt : memory_format_t)
    (hf : fmt ≠ memory_format_t.any) :
    (if d.format = memory_format_t.any then { d with format := fmt } else d).format
      ≠ memory_format_t.any := by
  by_cases h : d.format = memory_format_t.any
  · rw [if_pos h]
    exact hf
  · rw [if_neg h]
    exact h

theorem x_ne_any : memory_format_t.x ≠ memory_format_t.any := by
  simp

theorem fwd_sdp_resolved (sf : set_format_t)
    (hsf : ∀ d fmt, sf d fmt = (status_t.success, { d with format := fmt }))
    (p : _gemm_convolution_fwd_t.pd_t) :
    (_gemm_convolution_fwd_t.pd_t.set_default_params sf p).2.src_pd_.format ≠ memory_format_t.any
    ∧ (_gemm_convolution_fwd_t.pd_t.set_default_params sf p).2.dst_pd_.format ≠ memory_format_t.any
    ∧ (_gemm_convolution_fwd_t.pd_t.set_default_params sf p).2.weights_pd_.format ≠ memory_format_t.any
    ∧ (_gemm_convolution_fwd_t.pd_t.set_default_params sf p).2.bias_pd_.format ≠ memory_format_t.any := by
  obtain ⟨_, h1, h2, h3, h4⟩ := fwd_sdp_stores sf hsf p
  refine ⟨?_, ?_, ?_, ?_⟩
  · rw [h1]
    exact stored_format_ne_any _ _ (fwd_src_format_ne_any p)
  · rw [h2]
    exact stored_format_ne_any _ _ (fwd_src_format_ne_any p)
  · rw [h3]
    exact stored_format_ne_any _ _ (fwd_wei_format_ne_any p)
  · rw [h4]
    exact stored_format_ne_any _ _ x_ne_any

theorem fwd_sdp_idem (sf : set_format_t)
    (hsf : ∀ d fmt, sf d fmt = (status_t.success, { d with format := fmt }))
    (p : _gemm_convolution_fwd_t.pd_t) :
    _gemm_convolution_fwd_t.pd_t.set_default_params sf (_gemm_convolution_fwd_t.pd_t.set_default_params sf p).2
      = (status_t.success, (_gemm_convolution_fwd_t.pd_t.set_default_params sf p).2) := by
  have hr := fwd_sdp_resolved sf hsf p
  exact fwd_sdp_fixed sf _ hr.1 hr.2.1 hr.2.2.1 hr.2.2.2

theorem fwd_init_idem (sf : set_format_t)
    (hsf : ∀ d fmt, sf d fmt = (status_t.success, { d with format := fmt }))
    (p : _gemm_convolution_fwd_t.pd_t) :
    _gemm_convolution_fwd_t.pd_t.init sf (_gemm_convolution_fwd_t.pd_t.init sf p).2 = _gemm_convolution_fwd_t.pd_t.init sf p := by
  have h0 := (fwd_sdp_stores sf hsf p).1
  have hi := fwd_sdp_idem sf hsf p
  rw [fwd_init_snd]
  unfold _gemm_convolution_fwd_t.pd_t.init
  simp only [hi, h0]

theorem bwd_data_sdp_resolved (sf : set_format_t)
    (hsf : ∀ d fmt, sf d fmt = (status_t.success, { d with format := fmt }))
    (p : gemm_convolution_bwd_data_t.pd_t) :
    (gemm_convolution_bwd_data_t.pd_t.set_default_params sf p).2.diff_src_pd_.format ≠ memory_format_t.any
    ∧ (gemm_convolution_bwd_data_t.pd_t.set_default_params sf p).2.diff_dst_pd_.format ≠ memory_format_t.any
    ∧ (gemm_convolution_bwd_data_t.pd_t.set_default_params sf p).2.weights_pd_.format ≠ memory_format_t.any := by
  obtain ⟨_, h1, h2, h3⟩ := bwd_data_sdp_stores sf hsf p
  refine ⟨?_, ?_, ?_⟩
  · rw [h1]
    exact stored_format_ne_any _ _ (bwd_data_src_format_ne_any p)
  · rw [h2]
    exact stored_format_ne_any _ _ (bwd_data_src_format_ne_any p)
  · rw [h3]
    exact stored_format_ne_any _ _ (bwd_data_wei_format_ne_any p)

theorem bwd_data_sdp_idem (sf : set_format_t)
    (hsf : ∀ d fmt, sf d fmt = (status_t.success, { d with format := fmt }))
    (p : gemm_convolution_bwd_data_t.pd_t) :
    gemm_convolution_bwd_data_t.pd_t.set_default_params sf (gemm_convolution_bwd_data_t.pd_t.set_default_params sf p).2
      = (status_t.success, (gemm_convolution_bwd_data_t.pd_t.set_default_params sf p).2) := by
  have hr := bwd_data_sdp_resolved sf hsf p
  exact bwd_data_sdp_fixed sf _ hr.1 hr.2.1 hr.2.2

theorem bwd_data_init_idem (sf : set_format_t)
    (hsf : ∀ d fmt, sf d fmt = (status_t.success, { d with format := fmt }))
    (p : gemm_convolution_bwd_data_t.pd_t) :
    gemm_convolution_bwd_data_t.pd_t.init sf (gemm_convolution_bwd_data_t.pd_t.init sf p).2 = gemm_convolution_bwd_data_t.pd_t.init sf p := by
  have h0 := (bwd_data_sdp_stores sf hsf p).1
  have hi := bwd_data_sdp_idem sf hsf p
  rw [bwd_data_init_snd]
  unfold gemm_convolution_bwd_data_t.pd_t.init
  simp only [hi, h0]

theorem bwd_weights_sdp_resolved (sf : set_format_t)
    (hsf : ∀ d fmt, sf d fmt = (status_t.success, { d with format := fmt }))
    (p : gemm_convolution_bwd_weights_t.pd_t) :
    (gemm_convolution_bwd_weights_t.pd_t.set_default_params sf p).2.src_pd_.format ≠ memory_format_t.any
    ∧ (gemm_convolution_bwd_weights_t.pd_t.set_default_params sf p).2.diff_dst_pd_.format ≠ memory_format_t.any
    ∧ (gemm_convolution_bwd_weights_t.pd_t.set_default_params sf p).2.diff_weights_pd_.format ≠ memory_format_t.any
    ∧ (gemm_convolution_bwd_weights_t.pd_t.set_default_params sf p).2.diff_bias_pd_.format ≠ memory_format_t.any := by
  obtain ⟨_, h1, h2, h3, h4⟩ := bwd_weights_sdp_stores sf hsf p
  refine ⟨?_, ?_, ?_, ?_⟩
  · rw [h1]
    exact stored_format_ne_any _ _ (bwd_weights_src_format_ne_any p)
  · rw [h2]
    exact stored_format_ne_any _ _ (bwd_weights_src_format_ne_any p)
  · rw [h3]
    exact stored_format_ne_any _ _ (bwd_weights_wei_format_ne_any p)
  · rw [h4]
    exact stored_format_ne_any _ _ x_ne_any

theorem bwd_weights_sdp_idem (sf : set_format_t)
    (hsf : ∀ d fmt, sf d fmt = (status_t.success, { d with format := fmt }))
    (p : gemm_convolution_bwd_weights_t.pd_t) :
    gemm_convolution_bwd_weights_t.pd_t.set_default_params sf (gemm_convolution_bwd_weights_t.pd_t.set_default_params sf p).2
      = (status_t.success, (gemm_convolution_bwd_weights_t.pd_t.set_default_params sf p).2) := by
  have hr := bwd_weights_sdp_resolved sf hsf p
  exact bwd_weights_sdp_fixed sf _ hr.1 hr.2.1 hr.2.2.1 hr.2.2.2

theorem bwd_weights_init_idem (sf : set_format_t)
    (hsf : ∀ d fmt, sf d fmt = (status_t.success, { d with format := fmt }))
    (p : gemm_convolution_bwd_weights_t.pd_t) :
    gemm_convolution_bwd_weights_t.pd_t.init sf (gemm_convolution_bwd_weights_t.pd_t.init sf p).2 = gemm_convolution_bwd_weights_t.pd_t.init sf p := by
  have h0 := (bwd_weights_sdp_stores sf hsf p).1
  have hi := bwd_weights_sdp_idem sf hsf p
  rw [bwd_weights_init_snd]
  unfold gemm_convolution_bwd_weights_t.pd_t.init
  simp only [hi, h0]

/-! ### The claims -/

/-- C1: the forward validator's is_gemm_conv_format holds of a post-op sequence
exactly when the sequence is empty, a single relu, a single sum, or a sum
followed by a relu. -/
theorem is_gemm_conv_format_iff (po : post_ops_t) :
    _gemm_convolution_fwd_t.pd_t.is_gemm_conv_format po = true ↔
      (po = []
        ∨ (∃ e, po = [e] ∧ e.is_relu = true)
        ∨ (∃ e, po = [e] ∧ e.is_sum = true)
        ∨ (∃ a b, po = [a, b] ∧ a.is_sum = true ∧ b.is_relu = true)) := by
  constructor
  · intro h
    match po, h with
    | [], _ => exact Or.inl rfl
    | [e], h =>
      simp only [_gemm_convolution_fwd_t.pd_t.is_gemm_conv_format, post_ops_t.len_,
        post_ops_t.entry_, List.length_cons, List.length_nil, List.getD_cons_zero,
        Bool.true_and, Bool.or_eq_true] at h
      rcases h with h | h
      · exact Or.inr (Or.inl ⟨e, rfl, h⟩)
      · exact Or.inr (Or.inr (Or.inl ⟨e, rfl, h⟩))
    | [a, b], h =>
      simp only [_gemm_convolution_fwd_t.pd_t.is_gemm_conv_format, post_ops_t.len_,
        post_ops_t.entry_, List.length_cons, List.length_nil, List.getD_cons_zero,
        List.getD_cons_succ, Bool.true_and, Bool.and_eq_true] at h
      exact Or.inr (Or.inr (Or.inr ⟨a, b, rfl, h.1, h.2⟩))
    | _ :: _ :: _ :: _, h =>
      simp [_gemm_convolution_fwd_t.pd_t.is_gemm_conv_format, post_ops_t.len_] at h
  · rintro (rfl | ⟨e, rfl, h⟩ | ⟨e, rfl, h⟩ | ⟨a, b, rfl, ha, hb⟩)
    · rfl
    · simp [_gemm_convolution_fwd_t.pd_t.is_gemm_conv_format, post_ops_t.len_,
        post_ops_t.entry_, h]
    · simp [_gemm_convolution_fwd_t.pd_t.is_gemm_conv_format, post_ops_t.len_,
        post_ops_t.entry_, h]
    · simp [_gemm_convolution_fwd_t.pd_t.is_gemm_conv_format, post_ops_t.len_,
        post_ops_t.entry_, ha, hb]

/-- C2: whatever set_format does and whatever the other fields of a forward
request are, init returns unimplemented when the post-op sequence has three
or more entries and when it is a relu followed by a sum. -/
theorem fwd_init_rejects_long_or_relu_sum (sf : set_format_t)
    (p : _gemm_convolution_fwd_t.pd_t)
    (h : 3 ≤ p.post_ops_.len_
      ∨ ∃ a b, p.post_ops_ = [a, b] ∧ a.is_relu = true ∧ b.is_sum = true) :
    (_gemm_convolution_fwd_t.pd_t.init sf p).1 = status_t.unimplemented := by
  rcases fwd_init_status_cases sf p with hs | hs
  · exfalso
    have hfmt := ((fwd_init_success_iff sf p).1 hs).2.2.2.2.2.2.2.2
    rcases (gemm_conv_format_spec p.post_ops_).1 hfmt with h0 | ⟨e, h1, _⟩ | ⟨e, h1, _⟩
        | ⟨x, y, h2, hx, _⟩
    · rcases h with h | ⟨a, b, h, _⟩
      · simp [post_ops_t.len_, h0] at h
      · rw [h0] at h
        cases h
    · rcases h with h | ⟨a, b, h, _⟩
      · simp [post_ops_t.len_, h1] at h
      · rw [h1] at h
        cases h
    · rcases h with h | ⟨a, b, h, _⟩
      · simp [post_ops_t.len_, h1] at h
      · rw [h1] at h
        cases h
    · rcases h with h | ⟨a, b, h, ha, _⟩
      · simp [post_ops_t.len_, h2] at h
      · rw [h2] at h
        cases h
        rw [entry_not_is_sum_of_is_relu x ha] at hx
        cases hx
  · exact hs

/-- Witness for C2: the sequences relu, sum and sum, relu, relu are rejected
on an otherwise valid request. -/
theorem fwd_init_rejects_long_or_relu_sum_witness :
    (_gemm_convolution_fwd_t.pd_t.init set_format_ok (fwd_req [e_relu, e_sum])).1
        = status_t.unimplemented
    ∧ (_gemm_convolution_fwd_t.pd_t.init set_format_ok (fwd_req [e_sum, e_relu, e_relu])).1
        = status_t.unimplemented
    ∧ (_gemm_convolution_fwd_t.pd_t.init set_format_ok (fwd_req [e_sum, e_relu])).1
        = status_t.success :=
  ⟨fwd_init_rejects_long_or_relu_sum set_format_ok (fwd_req [e_relu, e_sum])
      (Or.inr ⟨e_relu, e_sum, rfl, by decide, by decide⟩),
    fwd_init_rejects_long_or_relu_sum set_format_ok (fwd_req [e_sum, e_relu, e_relu])
      (Or.inl (by decide)),
    by decide⟩

/-- C3: for a post-op sequence accepted by is_gemm_conv_format the forward
constructor sets beta_ to 1 when the sequence begins with a sum entry and to
0 otherwise; find yields -1 when no entry is a sum and otherwise the index
of the first sum entry. -/
theorem beta_of_accepted (po : post_ops_t)
    (h : _gemm_convolution_fwd_t.pd_t.is_gemm_conv_format po = true) :
    ((∃ e rest, po = e :: rest ∧ e.kind = primitive_kind_t.sum)
        → _gemm_convolution_fwd_t.beta_ po = 1)
    ∧ ((¬ ∃ e rest, po = e :: rest ∧ e.kind = primitive_kind_t.sum)
        → _gemm_convolution_fwd_t.beta_ po = 0)
    ∧ ((∀ e ∈ po, e.kind ≠ primitive_kind_t.sum) → po.find primitive_kind_t.sum = -1)
    ∧ (∀ i : Nat, i < po.len_ → (po.entry_ i).kind = primitive_kind_t.sum
        → (∀ j, j < i → (po.entry_ j).kind ≠ primitive_kind_t.sum)
        → po.find primitive_kind_t.sum = i) := by
  refine ⟨?_, ?_, ?_, ?_⟩
  · rintro ⟨e, rest, rfl, hk⟩
    simp [_gemm_convolution_fwd_t.beta_, post_ops_t.find, post_ops_t.findFrom, hk]
  · intro hno
    rcases (gemm_conv_format_spec po).1 h with h0 | ⟨e, h1, hr⟩ | ⟨e, h1, hsum⟩
        | ⟨x, y, h2, hx, _⟩
    · subst h0
      simp [_gemm_convolution_fwd_t.beta_, post_ops_t.find, post_ops_t.findFrom]
    · subst h1
      have hk : e.kind ≠ primitive_kind_t.sum := by
        intro hk
        have := entry_not_is_sum_of_is_relu e hr
        rw [(entry_is_sum_iff e).2 hk] at this
        cases this
      simp [_gemm_convolution_fwd_t.beta_, post_ops_t.find, post_ops_t.findFrom, hk]
    · exact absurd ⟨e, [], h1, (entry_is_sum_iff e).1 hsum⟩ hno
    · exact absurd ⟨x, [y], h2, (entry_is_sum_iff x).1 hx⟩ hno
  · intro hall
    exact findFrom_none primitive_kind_t.sum po 0 hall
  · intro i hi hk hfirst
    have := findFrom_first primitive_kind_t.sum po 0 i hi hk hfirst
    simpa [post_ops_t.find] using this

/-- Witness for C3: the accepted sequence sum, relu begins with a sum and gets
beta_ = 1; the accepted sequence relu does not and gets beta_ = 0. -/
theorem beta_of_accepted_witness :
    _gemm_convolution_fwd_t.pd_t.is_gemm_conv_format [e_sum, e_relu] = true
    ∧ _gemm_convolution_fwd_t.beta_ [e_sum, e_relu] = 1
    ∧ _gemm_convolution_fwd_t.pd_t.is_gemm_conv_format [e_relu] = true
    ∧ _gemm_convolution_fwd_t.beta_ [e_relu] = 0 :=
  ⟨by decide,
    (beta_of_accepted [e_sum, e_relu] (by decide)).1 ⟨e_sum, [e_relu], rfl, rfl⟩,
    by decide,
    (beta_of_accepted [e_relu] (by decide)).2.1 (by
      rintro ⟨e, rest, h, hk⟩
      cases h
      cases hk)⟩

/-- C4: each of the three validators returns either success or unimplemented,
and returns unimplemented whenever set_default_params ends with a status
other than success (a failing set_format), whatever that status is. -/
theorem init_status_success_or_unimplemented (sf : set_format_t) :
    (∀ p : _gemm_convolution_fwd_t.pd_t,
        ((_gemm_convolution_fwd_t.pd_t.init sf p).1 = status_t.success
          ∨ (_gemm_convolution_fwd_t.pd_t.init sf p).1 = status_t.unimplemented)
        ∧ ((_gemm_convolution_fwd_t.pd_t.set_default_params sf p).1 ≠ status_t.success
          → (_gemm_convolution_fwd_t.pd_t.init sf p).1 = status_t.unimplemented))
    ∧ (∀ p : gemm_convolution_bwd_data_t.pd_t,
        ((gemm_convolution_bwd_data_t.pd_t.init sf p).1 = status_t.success
          ∨ (gemm_convolution_bwd_data_t.pd_t.init sf p).1 = status_t.unimplemented)
        ∧ ((gemm_convolution_bwd_data_t.pd_t.set_default_params sf p).1 ≠ status_t.success
          → (gemm_convolution_bwd_data_t.pd_t.init sf p).1 = status_t.unimplemented))
    ∧ (∀ p : gemm_convolution_bwd_weights_t.pd_t,
        ((gemm_convolution_bwd_weights_t.pd_t.init sf p).1 = status_t.success
          ∨ (gemm_convolution_bwd_weights_t.pd_t.init sf p).1 = status_t.unimplemented)
        ∧ ((gemm_convolution_bwd_weights_t.pd_t.set_default_params sf p).1 ≠ status_t.success
          → (gemm_convolution_bwd_weights_t.pd_t.init sf p).1 = status_t.unimplemented)) := by
  refine ⟨fun p => ⟨fwd_init_status_cases sf p, fun hne => ?_⟩,
    fun p => ⟨bwd_data_init_status_cases sf p, fun hne => ?_⟩,
    fun p => ⟨bwd_weights_init_status_cases sf p, fun hne => ?_⟩⟩
  · rcases fwd_init_status_cases sf p with hs | hs
    · exact absurd ((fwd_init_success_iff sf p).1 hs).1 hne
    · exact hs
  · rcases bwd_data_init_status_cases sf p with hs | hs
    · exact absurd ((bwd_data_init_success_iff sf p).1 hs).1 hne
    · exact hs
  · rcases bwd_weights_init_status_cases sf p with hs | hs
    · exact absurd ((bwd_weights_init_success_iff sf p).1 hs).1 hne
    · exact hs

/-- Witness for C4: with a set_format that fails with out-of-memory,
set_default_params ends with out-of-memory and init answers unimplemented,
in each of the three validators. -/
theorem init_status_success_or_unimplemented_witness :
    ((_gemm_convolution_fwd_t.pd_t.set_default_params set_format_oom (fwd_req [])).1
        = status_t.out_of_memory
      ∧ (_gemm_convolution_fwd_t.pd_t.init set_format_oom (fwd_req [])).1
        = status_t.unimplemented)
    ∧ ((gemm_convolution_bwd_data_t.pd_t.set_default_params set_format_oom
          (bwd_data_req prop_kind_t.backward_data [])).1 = status_t.out_of_memory
      ∧ (gemm_convolution_bwd_data_t.pd_t.init set_format_oom
          (bwd_data_req prop_kind_t.backward_data [])).1 = status_t.unimplemented)
    ∧ ((gemm_convolution_bwd_weights_t.pd_t.set_default_params set_format_oom
          (bwd_weights_req prop_kind_t.backward_weights [])).1 = status_t.out_of_memory
      ∧ (gemm_convolution_bwd_weights_t.pd_t.init set_format_oom
          (bwd_weights_req prop_kind_t.backward_weights [])).1 = status_t.unimplemented) :=
  ⟨⟨by decide,
      ((init_status_success_or_unimplemented set_format_oom).1 (fwd_req [])).2 (by decide)⟩,
    ⟨by decide,
      ((init_status_success_or_unimplemented set_format_oom).2.1
        (bwd_data_req prop_kind_t.backward_data [])).2 (by decide)⟩,
    ⟨by decide,
      ((init_status_success_or_unimplemented set_format_oom).2.2
        (bwd_weights_req prop_kind_t.backward_weights [])).2 (by decide)⟩⟩

/-- C5: when set_format stores the given layout and succeeds, the forward
set_default_params succeeds and every layout that was any is replaced by the
canonical one: nchw (rank 4) or ncdhw (rank 5, and any other rank) for src
and dst; oihw, goihw, oidhw or goidhw for the weights according to rank and
groups; x for the bias. The grouped and ungrouped weights layouts of one
rank differ. -/
theorem fwd_set_default_params_canonical (sf : set_format_t)
    (hsf : ∀ d fmt, sf d fmt = (status_t.success, { d with format := fmt }))
    (p : _gemm_convolution_fwd_t.pd_t) :
    (_gemm_convolution_fwd_t.pd_t.set_default_params sf p).1 = status_t.success
    ∧ (p.src_pd_.format = memory_format_t.any →
        (_gemm_convolution_fwd_t.pd_t.set_default_params sf p).2.src_pd_.format
          = (if p.cdesc_.src_desc.ndims = 4 then memory_format_t.nchw
             else memory_format_t.ncdhw))
    ∧ (p.dst_pd_.format = memory_format_t.any →
        (_gemm_convolution_fwd_t.pd_t.set_default_params sf p).2.dst_pd_.format
          = (if p.cdesc_.src_desc.ndims = 4 then memory_format_t.nchw
             else memory_format_t.ncdhw))
    ∧ (p.weights_pd_.format = memory_format_t.any →
        (_gemm_convolution_fwd_t.pd_t.set_default_params sf p).2.weights_pd_.format
          = (if p.cdesc_.src_desc.ndims = 4
              then (if p.with_groups = true then memory_format_t.goihw
                    else memory_format_t.oihw)
              else (if p.with_groups = true then memory_format_t.goidhw
                    else memory_format_t.oidhw)))
    ∧ (p.bias_pd_.format = memory_format_t.any →
        (_gemm_convolution_fwd_t.pd_t.set_default_params sf p).2.bias_pd_.format
          = memory_format_t.x)
    ∧ (p.cdesc_.src_desc.ndims = 5 →
        _gemm_convolution_fwd_t.pd_t.src_format p = memory_format_t.ncdhw
        ∧ _gemm_convolution_fwd_t.pd_t.wei_format p
            = (if p.with_groups = true then memory_format_t.goidhw
               else memory_format_t.oidhw))
    ∧ (∀ g u : _gemm_convolution_fwd_t.pd_t,
        g.cdesc_.src_desc.ndims = u.cdesc_.src_desc.ndims →
        g.with_groups = true → u.with_groups = false →
        _gemm_convolution_fwd_t.pd_t.wei_format g
          ≠ _gemm_convolution_fwd_t.pd_t.wei_format u) := by
  obtain ⟨h0, h1, h2, h3, h4⟩ := fwd_sdp_stores sf hsf p
  refine ⟨h0, ?_, ?_, ?_, ?_, ?_, ?_⟩
  · intro ha
    rw [h1, if_pos ha, ← fwd_src_format_eq]
  · intro ha
    rw [h2, if_pos ha, ← fwd_src_format_eq]
  · intro ha
    rw [h3, if_pos ha, ← fwd_wei_format_eq]
  · intro ha
    rw [h4, if_pos ha]
  · intro h5
    rw [fwd_src_format_eq, fwd_wei_format_eq]
    simp [h5]
  · intro g u hr hg hu
    rw [fwd_wei_format_eq, fwd_wei_format_eq, hr, hg, hu]
    by_cases h4 : u.cdesc_.src_desc.ndims = 4 <;> simp [h4]

/-- Witness for C5: on the rank-4 ungrouped request with every layout
unspecified the defaults are nchw, nchw, oihw and x. -/
theorem fwd_set_default_params_canonical_witness :
    (_gemm_convolution_fwd_t.pd_t.set_default_params set_format_ok (fwd_req [])).2.src_pd_.format
        = memory_format_t.nchw
    ∧ (_gemm_convolution_fwd_t.pd_t.set_default_params set_format_ok
        (fwd_req [])).2.weights_pd_.format = memory_format_t.oihw
    ∧ (_gemm_convolution_fwd_t.pd_t.set_default_params set_format_ok
        (fwd_req [])).2.bias_pd_.format = memory_format_t.x :=
  ⟨(fwd_set_default_params_canonical set_format_ok (fun _ _ => rfl) (fwd_req [])).2.1 rfl,
    (fwd_set_default_params_canonical set_format_ok (fun _ _ => rfl) (fwd_req [])).2.2.2.1 rfl,
    (fwd_set_default_params_canonical set_format_ok (fun _ _ => rfl) (fwd_req [])).2.2.2.2.1 rfl⟩

/-- C6: for a forward request whose src, dst and weights layouts are all any,
when set_format stores the layout and succeeds, the three layout comparisons
of init hold on the resolved request, init returns success exactly when the
prop kind is forward_training or forward_inference, the algorithm is
convolution_direct, src, weights and dst are f32, the bias is f32 when
present, and the post-ops are one of the four valid patterns; and on success
no layout of the resolved request is any. -/
theorem fwd_init_all_any (sf : set_format_t)
    (hsf : ∀ d fmt, sf d fmt = (status_t.success, { d with format := fmt }))
    (p : _gemm_convolution_fwd_t.pd_t)
    (hsrc : p.src_pd_.format = memory_format_t.any)
    (hdst : p.dst_pd_.format = memory_format_t.any)
    (hwei : p.weights_pd_.format = memory_format_t.any) :
    ((_gemm_convolution_fwd_t.pd_t.init sf p).2.src_pd_.format
        = _gemm_convolution_fwd_t.pd_t.src_format (_gemm_convolution_fwd_t.pd_t.init sf p).2
      ∧ (_gemm_convolution_fwd_t.pd_t.init sf p).2.dst_pd_.format
        = _gemm_convolution_fwd_t.pd_t.src_format (_gemm_convolution_fwd_t.pd_t.init sf p).2
      ∧ (_gemm_convolution_fwd_t.pd_t.init sf p).2.weights_pd_.format
        = _gemm_convolution_fwd_t.pd_t.wei_format (_gemm_convolution_fwd_t.pd_t.init sf p).2)
    ∧ ((_gemm_convolution_fwd_t.pd_t.init sf p).1 = status_t.success ↔
        ((p.cdesc_.prop_kind = prop_kind_t.forward_training
            ∨ p.cdesc_.prop_kind = prop_kind_t.forward_inference)
        ∧ p.cdesc_.alg_kind = alg_kind_t.convolution_direct
        ∧ p.cdesc_.src_desc.data_type = data_type_t.f32
        ∧ p.cdesc_.weights_desc.data_type = data_type_t.f32
        ∧ p.cdesc_.dst_desc.data_type = data_type_t.f32
        ∧ (p.with_bias = true → p.cdesc_.bias_desc.data_type = data_type_t.f32)
        ∧ (p.post_ops_ = []
            ∨ (∃ e, p.post_ops_ = [e] ∧ e.is_relu = true)
            ∨ (∃ e, p.post_ops_ = [e] ∧ e.is_sum = true)
            ∨ (∃ a b, p.post_ops_ = [a, b] ∧ a.is_sum = true ∧ b.is_relu = true))))
    ∧ ((_gemm_convolution_fwd_t.pd_t.init sf p).1 = status_t.success →
        (_gemm_convolution_fwd_t.pd_t.init sf p).2.src_pd_.format ≠ memory_format_t.any
        ∧ (_gemm_convolution_fwd_t.pd_t.init sf p).2.dst_pd_.format ≠ memory_format_t.any
        ∧ (_gemm_convolution_fwd_t.pd_t.init sf p).2.weights_pd_.format ≠ memory_format_t.any
        ∧ (_gemm_convolution_fwd_t.pd_t.init sf p).2.bias_pd_.format
            ≠ memory_format_t.any) := by
  obtain ⟨h0, h1, h2, h3, h4⟩ := fwd_sdp_stores sf hsf p
  rw [if_pos hsrc] at h1
  rw [if_pos hdst] at h2
  rw [if_pos hwei] at h3
  have e1 : (_gemm_convolution_fwd_t.pd_t.set_default_params sf p).2.src_pd_.format
      = _gemm_convolution_fwd_t.pd_t.src_format p := by rw [h1]
  have e2 : (_gemm_convolution_fwd_t.pd_t.set_default_params sf p).2.dst_pd_.format
      = _gemm_convolution_fwd_t.pd_t.src_format p := by rw [h2]
  have e3 : (_gemm_convolution_fwd_t.pd_t.set_default_params sf p).2.weights_pd_.format
      = _gemm_convolution_fwd_t.pd_t.wei_format p := by rw [h3]
  have e4 : (_gemm_convolution_fwd_t.pd_t.set_default_params sf p).2.bias_pd_.format
      ≠ memory_format_t.any := by
    rw [h4]
    by_cases hb : p.bias_pd_.format = memory_format_t.any
    · rw [if_pos hb]
      simp
    · rw [if_neg hb]
      exact hb
  refine ⟨?_, ?_, ?_⟩
  · rw [fwd_init_snd, fwd_src_format_frame, fwd_wei_format_frame]
    exact ⟨e1, e2, e3⟩
  · rw [fwd_init_success_iff]
    constructor
    · rintro ⟨_, a, b, ⟨c1, c2, c3⟩, d, _, _, _, f⟩
      exact ⟨a, b, c1, c2, c3, d, (gemm_conv_format_spec p.post_ops_).1 f⟩
    · rintro ⟨a, b, c1, c2, c3, d, f⟩
      exact ⟨h0, a, b, ⟨c1, c2, c3⟩, d, e1, e2, e3, (gemm_conv_format_spec p.post_ops_).2 f⟩
  · intro _
    rw [fwd_init_snd, e1, e2, e3]
    exact ⟨fwd_src_format_ne_any p, fwd_src_format_ne_any p, fwd_wei_format_ne_any p, e4⟩

/-- Witness for C6: the rank-4 forward-training request with every layout
unspecified and post-ops sum, relu is accepted, and its resolved src layout
is not any. -/
theorem fwd_init_all_any_witness :
    (_gemm_convolution_fwd_t.pd_t.init set_format_ok (fwd_req [e_sum, e_relu])).1
        = status_t.success
    ∧ (_gemm_convolution_fwd_t.pd_t.init set_format_ok (fwd_req [e_sum, e_relu])).2.src_pd_.format
        ≠ memory_format_t.any :=
  ⟨(fwd_init_all_any set_format_ok (fun _ _ => rfl) (fwd_req [e_sum, e_relu])
        rfl rfl rfl).2.1.2
      ⟨Or.inl rfl, rfl, rfl, rfl, rfl, fun _ => rfl,
        Or.inr (Or.inr (Or.inr ⟨e_sum, e_relu, rfl, by decide, by decide⟩))⟩,
    ((fwd_init_all_any set_format_ok (fun _ _ => rfl) (fwd_req [e_sum, e_relu])
        rfl rfl rfl).2.2 (by decide)).1⟩

/-- C7: each of the three validators returns success only if every tensor it
names has type f32: src, weights, dst and the bias when present (forward);
diff_src, weights, diff_dst (backward data); src, diff_weights, diff_dst and
the diff_bias when a bias is present (backward weights). -/
theorem init_success_requires_f32 (sf : set_format_t) :
    (∀ p : _gemm_convolution_fwd_t.pd_t,
        (_gemm_convolution_fwd_t.pd_t.init sf p).1 = status_t.success →
        p.cdesc_.src_desc.data_type = data_type_t.f32
        ∧ p.cdesc_.weights_desc.data_type = data_type_t.f32
        ∧ p.cdesc_.dst_desc.data_type = data_type_t.f32
        ∧ (p.with_bias = true → p.cdesc_.bias_desc.data_type = data_type_t.f32))
    ∧ (∀ p : gemm_convolution_bwd_data_t.pd_t,
        (gemm_convolution_bwd_data_t.pd_t.init sf p).1 = status_t.success →
        p.desc.diff_src_desc.data_type = data_type_t.f32
        ∧ p.desc.weights_desc.data_type = data_type_t.f32
        ∧ p.desc.diff_dst_desc.data_type = data_type_t.f32)
    ∧ (∀ p : gemm_convolution_bwd_weights_t.pd_t,
        (gemm_convolution_bwd_weights_t.pd_t.init sf p).1 = status_t.success →
        p.desc.src_desc.data_type = data_type_t.f32
        ∧ p.desc.diff_weights_desc.data_type = data_type_t.f32
        ∧ p.desc.diff_dst_desc.data_type = data_type_t.f32
        ∧ (p.with_bias = true → p.desc.diff_bias_desc.data_type = data_type_t.f32)) := by
  refine ⟨fun p hs => ?_, fun p hs => ?_, fun p hs => ?_⟩
  · obtain ⟨_, _, _, ⟨c1, c2, c3⟩, d, _⟩ := (fwd_init_success_iff sf p).1 hs
    exact ⟨c1, c2, c3, d⟩
  · obtain ⟨_, _, _, ⟨c1, c2, c3⟩, _⟩ := (bwd_data_init_success_iff sf p).1 hs
    exact ⟨c1, c2, c3⟩
  · obtain ⟨_, _, _, ⟨c1, c2, c3⟩, d, _⟩ := (bwd_weights_init_success_iff sf p).1 hs
    exact ⟨c1, c2, c3, d⟩

/-- Witness for C7: three accepted requests, one per validator, whose tensors
are all f32. -/
theorem init_success_requires_f32_witness :
    ((_gemm_convolution_fwd_t.pd_t.init set_format_ok (fwd_req [])).1 = status_t.success
      ∧ (fwd_req []).cdesc_.src_desc.data_type = data_type_t.f32)
    ∧ ((gemm_convolution_bwd_data_t.pd_t.init set_format_ok
          (bwd_data_req prop_kind_t.backward_data [])).1 = status_t.success
      ∧ (bwd_data_req prop_kind_t.backward_data []).desc.diff_src_desc.data_type
          = data_type_t.f32)
    ∧ ((gemm_convolution_bwd_weights_t.pd_t.init set_format_ok
          (bwd_weights_req prop_kind_t.backward_weights [])).1 = status_t.success
      ∧ (bwd_weights_req prop_kind_t.backward_weights []).desc.diff_weights_desc.data_type
          = data_type_t.f32) :=
  ⟨⟨by decide,
      ((init_success_requires_f32 set_format_ok).1 (fwd_req []) (by decide)).1⟩,
    ⟨by decide,
      ((init_success_requires_f32 set_format_ok).2.1
        (bwd_data_req prop_kind_t.backward_data []) (by decide)).1⟩,
    ⟨by decide,
      ((init_success_requires_f32 set_format_ok).2.2
        (bwd_weights_req prop_kind_t.backward_weights []) (by decide)).2.1⟩⟩

/-- C8, counterexample: the backward-data and backward-weights validators
accept a request whose propagation kind is backward, which is none of
forward-inference, forward-training, backward-data, backward-weights. -/
theorem bwd_init_accepts_backward :
    ((gemm_convolution_bwd_data_t.pd_t.init set_format_ok
          (bwd_data_req prop_kind_t.backward [])).1 = status_t.success
      ∧ (gemm_convolution_bwd_weights_t.pd_t.init set_format_ok
          (bwd_weights_req prop_kind_t.backward [])).1 = status_t.success)
    ∧ ¬ ((bwd_data_req prop_kind_t.backward []).desc.prop_kind = prop_kind_t.forward_inference
        ∨ (bwd_data_req prop_kind_t.backward []).desc.prop_kind = prop_kind_t.forward_training
        ∨ (bwd_data_req prop_kind_t.backward []).desc.prop_kind = prop_kind_t.backward_data
        ∨ (bwd_data_req prop_kind_t.backward []).desc.prop_kind
            = prop_kind_t.backward_weights)
    ∧ ¬ ((bwd_weights_req prop_kind_t.backward []).desc.prop_kind
            = prop_kind_t.forward_inference
        ∨ (bwd_weights_req prop_kind_t.backward []).desc.prop_kind
            = prop_kind_t.forward_training
        ∨ (bwd_weights_req prop_kind_t.backward []).desc.prop_kind = prop_kind_t.backward_data
        ∨ (bwd_weights_req prop_kind_t.backward []).desc.prop_kind
            = prop_kind_t.backward_weights) := by
  decide

/-- C8, amended: each validator returns success only if the propagation kind is
one it lists: forward_training or forward_inference (forward), backward or
backward_data (backward data), backward or backward_weights (backward
weights). -/
theorem init_success_prop_kind (sf : set_format_t) :
    (∀ p : _gemm_convolution_fwd_t.pd_t,
        (_gemm_convolution_fwd_t.pd_t.init sf p).1 = status_t.success →
        p.cdesc_.prop_kind = prop_kind_t.forward_training
        ∨ p.cdesc_.prop_kind = prop_kind_t.forward_inference)
    ∧ (∀ p : gemm_convolution_bwd_data_t.pd_t,
        (gemm_convolution_bwd_data_t.pd_t.init sf p).1 = status_t.success →
        p.desc.prop_kind = prop_kind_t.backward
        ∨ p.desc.prop_kind = prop_kind_t.backward_data)
    ∧ (∀ p : gemm_convolution_bwd_weights_t.pd_t,
        (gemm_convolution_bwd_weights_t.pd_t.init sf p).1 = status_t.success →
        p.desc.prop_kind = prop_kind_t.backward
        ∨ p.desc.prop_kind = prop_kind_t.backward_weights) :=
  ⟨fun p hs => ((fwd_init_success_iff sf p).1 hs).2.1,
    fun p hs => ((bwd_data_init_success_iff sf p).1 hs).2.1,
    fun p hs => ((bwd_weights_init_success_iff sf p).1 hs).2.1⟩

/-- Witness for C8, amended: an accepted request per validator with a
propagation kind that the validator lists. -/
theorem init_success_prop_kind_witness :
    ((_gemm_convolution_fwd_t.pd_t.init set_format_ok (fwd_req [])).1 = status_t.success
      ∧ ((fwd_req []).cdesc_.prop_kind = prop_kind_t.forward_training
        ∨ (fwd_req []).cdesc_.prop_kind = prop_kind_t.forward_inference))
    ∧ ((gemm_convolution_bwd_data_t.pd_t.init set_format_ok
          (bwd_data_req prop_kind_t.backward_data [])).1 = status_t.success
      ∧ ((bwd_data_req prop_kind_t.backward_data []).desc.prop_kind = prop_kind_t.backward
        ∨ (bwd_data_req prop_kind_t.backward_data []).desc.prop_kind
            = prop_kind_t.backward_data))
    ∧ ((gemm_convolution_bwd_weights_t.pd_t.init set_format_ok
          (bwd_weights_req prop_kind_t.backward_weights [])).1 = status_t.success
      ∧ ((bwd_weights_req prop_kind_t.backward_weights []).desc.prop_kind
            = prop_kind_t.backward
        ∨ (bwd_weights_req prop_kind_t.backward_weights []).desc.prop_kind
            = prop_kind_t.backward_weights)) :=
  ⟨⟨by decide, (init_success_prop_kind set_format_ok).1 (fwd_req []) (by decide)⟩,
    ⟨by decide, (init_success_prop_kind set_format_ok).2.1
        (bwd_data_req prop_kind_t.backward_data []) (by decide)⟩,
    ⟨by decide, (init_success_prop_kind set_format_ok).2.2
        (bwd_weights_req prop_kind_t.backward_weights []) (by decide)⟩⟩

/-- C9: each of the three validators returns success only if both data
tensors and the weights are in the supported layouts: every requested layout
is either any or the canonical one (nchw for rank 4 and ncdhw otherwise;
oihw or goihw for rank 4 and oidhw or goidhw otherwise, without or with
groups), and the resolved layouts are the canonical ones; a request that
explicitly specifies another layout for one of them gets unimplemented. -/
theorem init_success_layouts (sf : set_format_t) :
    (∀ p : _gemm_convolution_fwd_t.pd_t,
      ((_gemm_convolution_fwd_t.pd_t.init sf p).1 = status_t.success →
        (p.src_pd_.format = memory_format_t.any
          ∨ p.src_pd_.format = (if p.cdesc_.src_desc.ndims = 4 then memory_format_t.nchw
              else memory_format_t.ncdhw))
        ∧ (p.dst_pd_.format = memory_format_t.any
          ∨ p.dst_pd_.format = (if p.cdesc_.src_desc.ndims = 4 then memory_format_t.nchw
              else memory_format_t.ncdhw))
        ∧ (p.weights_pd_.format = memory_format_t.any
          ∨ p.weights_pd_.format = (if p.cdesc_.src_desc.ndims = 4
              then (if p.with_groups = true then memory_format_t.goihw
                    else memory_format_t.oihw)
              else (if p.with_groups = true then memory_format_t.goidhw
                    else memory_format_t.oidhw)))
        ∧ (_gemm_convolution_fwd_t.pd_t.init sf p).2.src_pd_.format
            = (if p.cdesc_.src_desc.ndims = 4 then memory_format_t.nchw
              else memory_format_t.ncdhw)
        ∧ (_gemm_convolution_fwd_t.pd_t.init sf p).2.dst_pd_.format
            = (if p.cdesc_.src_desc.ndims = 4 then memory_format_t.nchw
              else memory_format_t.ncdhw)
        ∧ (_gemm_convolution_fwd_t.pd_t.init sf p).2.weights_pd_.format
            = (if p.cdesc_.src_desc.ndims = 4
              then (if p.with_groups = true then memory_format_t.goihw
                    else memory_format_t.oihw)
              else (if p.with_groups = true then memory_format_t.goidhw
                    else memory_format_t.oidhw)))
      ∧ (((p.src_pd_.format ≠ memory_format_t.any
            ∧ p.src_pd_.format ≠ (if p.cdesc_.src_desc.ndims = 4 then memory_format_t.nchw
              else memory_format_t.ncdhw))
          ∨ (p.dst_pd_.format ≠ memory_format_t.any
            ∧ p.dst_pd_.format ≠ (if p.cdesc_.src_desc.ndims = 4 then memory_format_t.nchw
              else memory_format_t.ncdhw))
          ∨ (p.weights_pd_.format ≠ memory_format_t.any
            ∧ p.weights_pd_.format ≠ (if p.cdesc_.src_desc.ndims = 4
              then (if p.with_groups = true then memory_format_t.goihw
                    else memory_format_t.oihw)
              else (if p.with_groups = true then memory_format_t.goidhw
                    else memory_format_t.oidhw))))
        → (_gemm_convolution_fwd_t.pd_t.init sf p).1 = status_t.unimplemented))
    ∧
    (∀ p : gemm_convolution_bwd_data_t.pd_t,
      ((gemm_convolution_bwd_data_t.pd_t.init sf p).1 = status_t.success →
        (p.diff_src_pd_.format = memory_format_t.any
          ∨ p.diff_src_pd_.format = (if p.desc.diff_src_desc.ndims = 4 then memory_format_t.nchw
              else memory_format_t.ncdhw))
        ∧ (p.diff_dst_pd_.format = memory_format_t.any
          ∨ p.diff_dst_pd_.format = (if p.desc.diff_src_desc.ndims = 4 then memory_format_t.nchw
              else memory_format_t.ncdhw))
        ∧ (p.weights_pd_.format = memory_format_t.any
          ∨ p.weights_pd_.format = (if p.desc.diff_src_desc.ndims = 4
              then (if p.with_groups = true then memory_format_t.goihw
                    else memory_format_t.oihw)
              else (if p.with_groups = true then memory_format_t.goidhw
                    else memory_format_t.oidhw)))
        ∧ (gemm_convolution_bwd_data_t.pd_t.init sf p).2.diff_src_pd_.format
            = (if p.desc.diff_src_desc.ndims = 4 then memory_format_t.nchw
              else memory_format_t.ncdhw)
        ∧ (gemm_convolution_bwd_data_t.pd_t.init sf p).2.diff_dst_pd_.format
            = (if p.desc.diff_src_desc.ndims = 4 then memory_format_t.nchw
              else memory_format_t.ncdhw)
        ∧ (gemm_convolution_bwd_data_t.pd_t.init sf p).2.weights_pd_.format
            = (if p.desc.diff_src_desc.ndims = 4
              then (if p.with_groups = true then memory_format_t.goihw
                    else memory_format_t.oihw)
              else (if p.with_groups = true then memory_format_t.goidhw
                    else memory_format_t.oidhw)))
      ∧ (((p.diff_src_pd_.format ≠ memory_format_t.any
            ∧ p.diff_src_pd_.format ≠ (if p.desc.diff_src_desc.ndims = 4 then memory_format_t.nchw
              else memory_format_t.ncdhw))
          ∨ (p.diff_dst_pd_.format ≠ memory_format_t.any
            ∧ p.diff_dst_pd_.format ≠ (if p.desc.diff_src_desc.ndims = 4 then memory_format_t.nchw
              else memory_format_t.ncdhw))
          ∨ (p.weights_pd_.format ≠ memory_format_t.any
            ∧ p.weights_pd_.format ≠ (if p.desc.diff_src_desc.ndims = 4
              then (if p.with_groups = true then memory_format_t.goihw
                    else memory_format_t.oihw)
              else (if p.with_groups = true then memory_format_t.goidhw
                    else memory_format_t.oidhw))))
        → (gemm_convolution_bwd_data_t.pd_t.init sf p).1 = status_t.unimplemented))
    ∧
    (∀ p : gemm_convolution_bwd_weights_t.pd_t,
      ((gemm_convolution_bwd_weights_t.pd_t.init sf p).1 = status_t.success →
        (p.src_pd_.format = memory_format_t.any
          ∨ p.src_pd_.format = (if p.desc.src_desc.ndims = 4 then memory_format_t.nchw
              else memory_format_t.ncdhw))
        ∧ (p.diff_dst_pd_.format = memory_format_t.any
          ∨ p.diff_dst_pd_.format = (if p.desc.src_desc.ndims = 4 then memory_format_t.nchw
              else memory_format_t.ncdhw))
        ∧ (p.diff_weights_pd_.format = memory_format_t.any
          ∨ p.diff_weights_pd_.format = (if p.desc.src_desc.ndims = 4
              then (if p.with_groups = true then memory_format_t.goihw
                    else memory_format_t.oihw)
              else (if p.with_groups = true then memory_format_t.goidhw
                    else memory_format_t.oidhw)))
        ∧ (gemm_convolution_bwd_weights_t.pd_t.init sf p).2.src_pd_.format
            = (if p.desc.src_desc.ndims = 4 then memory_format_t.nchw
              else memory_format_t.ncdhw)
        ∧ (gemm_convolution_bwd_weights_t.pd_t.init sf p).2.diff_dst_pd_.format
            = (if p.desc.src_desc.ndims = 4 then memory_format_t.nchw
              else memory_format_t.ncdhw)
        ∧ (gemm_convolution_bwd_weights_t.pd_t.init sf p).2.diff_weights_pd_.format
            = (if p.desc.src_desc.ndims = 4
              then (if p.with_groups = true then memory_format_t.goihw
                    else memory_format_t.oihw)
              else (if p.with_groups = true then memory_format_t.goidhw
                    else memory_format_t.oidhw)))
      ∧ (((p.src_pd_.format ≠ memory_format_t.any
            ∧ p.src_pd_.format ≠ (if p.desc.src_desc.ndims = 4 then memory_format_t.nchw
              else memory_format_t.ncdhw))
          ∨ (p.diff_dst_pd_.format ≠ memory_format_t.any
            ∧ p.diff_dst_pd_.format ≠ (if p.desc.src_desc.ndims = 4 then memory_format_t.nchw
              else memory_format_t.ncdhw))
          ∨ (p.diff_weights_pd_.format ≠ memory_format_t.any
            ∧ p.diff_weights_pd_.format ≠ (if p.desc.src_desc.ndims = 4
              then (if p.with_groups = true then memory_format_t.goihw
                    else memory_format_t.oihw)
              else (if p.with_groups = true then memory_format_t.goidhw
                    else memory_format_t.oidhw))))
        → (gemm_convolution_bwd_weights_t.pd_t.init sf p).1 = status_t.unimplemented)) := by
  refine ⟨fun p => ?_, fun p => ?_, fun p => ?_⟩
  · have key : (_gemm_convolution_fwd_t.pd_t.init sf p).1 = status_t.success →
        (p.src_pd_.format = memory_format_t.any
          ∨ p.src_pd_.format = _gemm_convolution_fwd_t.pd_t.src_format p)
        ∧ (p.dst_pd_.format = memory_format_t.any
          ∨ p.dst_pd_.format = _gemm_convolution_fwd_t.pd_t.src_format p)
        ∧ (p.weights_pd_.format = memory_format_t.any
          ∨ p.weights_pd_.format = _gemm_convolution_fwd_t.pd_t.wei_format p)
        ∧ (_gemm_convolution_fwd_t.pd_t.init sf p).2.src_pd_.format
            = _gemm_convolution_fwd_t.pd_t.src_format p
        ∧ (_gemm_convolution_fwd_t.pd_t.init sf p).2.dst_pd_.format
            = _gemm_convolution_fwd_t.pd_t.src_format p
        ∧ (_gemm_convolution_fwd_t.pd_t.init sf p).2.weights_pd_.format
            = _gemm_convolution_fwd_t.pd_t.wei_format p := by
      intro hs
      obtain ⟨_, _, _, _, _, f, g, i, _⟩ := (fwd_init_success_iff sf p).1 hs
      obtain ⟨k1, k2, k3, _⟩ := fwd_sdp_keep sf p
      exact ⟨format_any_or_of_resolved _ _ _ k1 f, format_any_or_of_resolved _ _ _ k2 g,
        format_any_or_of_resolved _ _ _ k3 i, f, g, i⟩
    rw [fwd_src_format_eq, fwd_wei_format_eq] at key
    refine ⟨key, fun hbad => ?_⟩
    rcases fwd_init_status_cases sf p with hs | hs
    · exfalso
      obtain ⟨a, b, c, _⟩ := key hs
      rcases hbad with ⟨h1, h2⟩ | ⟨h1, h2⟩ | ⟨h1, h2⟩
      · exact a.elim h1 h2
      · exact b.elim h1 h2
      · exact c.elim h1 h2
    · exact hs
  · have key : (gemm_convolution_bwd_data_t.pd_t.init sf p).1 = status_t.success →
        (p.diff_src_pd_.format = memory_format_t.any
          ∨ p.diff_src_pd_.format = gemm_convolution_bwd_data_t.pd_t.src_format p)
        ∧ (p.diff_dst_pd_.format = memory_format_t.any
          ∨ p.diff_dst_pd_.format = gemm_convolution_bwd_data_t.pd_t.src_format p)
        ∧ (p.weights_pd_.format = memory_format_t.any
          ∨ p.weights_pd_.format = gemm_convolution_bwd_data_t.pd_t.wei_format p)
        ∧ (gemm_convolution_bwd_data_t.pd_t.init sf p).2.diff_src_pd_.format
            = gemm_convolution_bwd_data_t.pd_t.src_format p
        ∧ (gemm_convolution_bwd_data_t.pd_t.init sf p).2.diff_dst_pd_.format
            = gemm_convolution_bwd_data_t.pd_t.src_format p
        ∧ (gemm_convolution_bwd_data_t.pd_t.init sf p).2.weights_pd_.format
            = gemm_convolution_bwd_data_t.pd_t.wei_format p := by
      intro hs
      obtain ⟨_, _, _, _, f, g, i⟩ := (bwd_data_init_success_iff sf p).1 hs
      obtain ⟨k1, k2, k3⟩ := bwd_data_sdp_keep sf p
      exact ⟨format_any_or_of_resolved _ _ _ k1 f, format_any_or_of_resolved _ _ _ k2 g,
        format_any_or_of_resolved _ _ _ k3 i, f, g, i⟩
    rw [bwd_data_src_format_eq, bwd_data_wei_format_eq] at key
    refine ⟨key, fun hbad => ?_⟩
    rcases bwd_data_init_status_cases sf p with hs | hs
    · exfalso
      obtain ⟨a, b, c, _⟩ := key hs
      rcases hbad with ⟨h1, h2⟩ | ⟨h1, h2⟩ | ⟨h1, h2⟩
      · exact a.elim h1 h2
      · exact b.elim h1 h2
      · exact c.elim h1 h2
    · exact hs
  · have key : (gemm_convolution_bwd_weights_t.pd_t.init sf p).1 = status_t.success →
        (p.src_pd_.format = memory_format_t.any
          ∨ p.src_pd_.format = gemm_convolution_bwd_weights_t.pd_t.src_format p)
        ∧ (p.diff_dst_pd_.format = memory_format_t.any
          ∨ p.diff_dst_pd_.format = gemm_convolution_bwd_weights_t.pd_t.src_format p)
        ∧ (p.diff_weights_pd_.format = memory_format_t.any
          ∨ p.diff_weights_pd_.format = gemm_convolution_bwd_weights_t.pd_t.wei_format p)
        ∧ (gemm_convolution_bwd_weights_t.pd_t.init sf p).2.src_pd_.format
            = gemm_convolution_bwd_weights_t.pd_t.src_format p
        ∧ (gemm_convolution_bwd_weights_t.pd_t.init sf p).2.diff_dst_pd_.format
            = gemm_convolution_bwd_weights_t.pd_t.src_format p
        ∧ (gemm_convolution_bwd_weights_t.pd_t.init sf p).2.diff_weights_pd_.format
            = gemm_convolution_bwd_weights_t.pd_t.wei_format p := by
      intro hs
      obtain ⟨_, _, _, _, _, f, g, i⟩ := (bwd_weights_init_success_iff sf p).1 hs
      obtain ⟨k1, k2, k3, _⟩ := bwd_weights_sdp_keep sf p
      exact ⟨format_any_or_of_resolved _ _ _ k1 f, format_any_or_of_resolved _ _ _ k2 g,
        format_any_or_of_resolved _ _ _ k3 i, f, g, i⟩
    rw [bwd_weights_src_format_eq, bwd_weights_wei_format_eq] at key
    refine ⟨key, fun hbad => ?_⟩
    rcases bwd_weights_init_status_cases sf p with hs | hs
    · exfalso
      obtain ⟨a, b, c, _⟩ := key hs
      rcases hbad with ⟨h1, h2⟩ | ⟨h1, h2⟩ | ⟨h1, h2⟩
      · exact a.elim h1 h2
      · exact b.elim h1 h2
      · exact c.elim h1 h2
    · exact hs

/-- Witness for C9: per validator, a request with unspecified layouts is
accepted and resolved to the canonical layout, and a request that names
another layout explicitly is answered with unimplemented. -/
theorem init_success_layouts_witness :
    ((_gemm_convolution_fwd_t.pd_t.init set_format_ok (fwd_req [])).2.src_pd_.format
        = memory_format_t.nchw
      ∧ (_gemm_convolution_fwd_t.pd_t.init set_format_ok
          (fwd_req_with_src memory_format_t.oihw)).1 = status_t.unimplemented)
    ∧ ((gemm_convolution_bwd_data_t.pd_t.init set_format_ok
          (bwd_data_req prop_kind_t.backward_data [])).2.weights_pd_.format
        = memory_format_t.oihw
      ∧ (gemm_convolution_bwd_data_t.pd_t.init set_format_ok
          (bwd_data_req_with_weights memory_format_t.goihw)).1 = status_t.unimplemented)
    ∧ ((gemm_convolution_bwd_weights_t.pd_t.init set_format_ok
          (bwd_weights_req prop_kind_t.backward_weights [])).2.diff_dst_pd_.format
        = memory_format_t.nchw
      ∧ (gemm_convolution_bwd_weights_t.pd_t.init set_format_ok
          (bwd_weights_req_with_diff_dst (memory_format_t.other 0))).1
        = status_t.unimplemented) :=
  ⟨⟨(((init_success_layouts set_format_ok).1 (fwd_req [])).1 (by decide)).2.2.2.1,
      ((init_success_layouts set_format_ok).1 (fwd_req_with_src memory_format_t.oihw)).2
        (Or.inl ⟨by decide, by decide⟩)⟩,
    ⟨(((init_success_layouts set_format_ok).2.1
        (bwd_data_req prop_kind_t.backward_data [])).1 (by decide)).2.2.2.2.2,
      ((init_success_layouts set_format_ok).2.1
        (bwd_data_req_with_weights memory_format_t.goihw)).2
        (Or.inr (Or.inr ⟨by decide, by decide⟩))⟩,
    ⟨(((init_success_layouts set_format_ok).2.2
        (bwd_weights_req prop_kind_t.backward_weights [])).1 (by decide)).2.2.2.2.1,
      ((init_success_layouts set_format_ok).2.2
        (bwd_weights_req_with_diff_dst (memory_format_t.other 0))).2
        (Or.inr (Or.inl ⟨by decide, by decide⟩))⟩⟩

/-- C10, counterexample: the backward-data validator accepts a request whose
post-ops are relu, sum, and the backward-weights validator accepts one whose
post-ops are sum, relu, relu; neither sequence is one of the four valid
patterns. -/
theorem bwd_init_accepts_invalid_post_ops :
    (gemm_convolution_bwd_data_t.pd_t.init set_format_ok
        (bwd_data_req prop_kind_t.backward_data [e_relu, e_sum])).1 = status_t.success
    ∧ _gemm_convolution_fwd_t.pd_t.is_gemm_conv_format
        (bwd_data_req prop_kind_t.backward_data [e_relu, e_sum]).post_ops_ = false
    ∧ (gemm_convolution_bwd_weights_t.pd_t.init set_format_ok
        (bwd_weights_req prop_kind_t.backward_weights [e_sum, e_relu, e_relu])).1
        = status_t.success
    ∧ _gemm_convolution_fwd_t.pd_t.is_gemm_conv_format
        (bwd_weights_req prop_kind_t.backward_weights [e_sum, e_relu, e_relu]).post_ops_
        = false := by
  decide

/-- C10, amended: the post-op pattern check is made by the forward validator
only. Forward init returns success only if the post-op sequence satisfies
is_gemm_conv_format; the status returned by the backward-data and
backward-weights init is the same whatever the post-op sequence is. -/
theorem post_ops_checked_by_forward_only (sf : set_format_t) :
    (∀ p : _gemm_convolution_fwd_t.pd_t,
        (_gemm_convolution_fwd_t.pd_t.init sf p).1 = status_t.success →
        _gemm_convolution_fwd_t.pd_t.is_gemm_conv_format p.post_ops_ = true)
    ∧ (∀ (p : gemm_convolution_bwd_data_t.pd_t) (po : post_ops_t),
        (gemm_convolution_bwd_data_t.pd_t.init sf { p with post_ops_ := po }).1
          = (gemm_convolution_bwd_data_t.pd_t.init sf p).1)
    ∧ (∀ (p : gemm_convolution_bwd_weights_t.pd_t) (po : post_ops_t),
        (gemm_convolution_bwd_weights_t.pd_t.init sf { p with post_ops_ := po }).1
          = (gemm_convolution_bwd_weights_t.pd_t.init sf p).1) :=
  ⟨fun p hs => ((fwd_init_success_iff sf p).1 hs).2.2.2.2.2.2.2.2,
    fun p po => bwd_data_init_post_ops sf p po,
    fun p po => bwd_weights_init_post_ops sf p po⟩

/-- Witness for C10, amended: an accepted forward request has valid post-ops. -/
theorem post_ops_checked_by_forward_only_witness :
    (_gemm_convolution_fwd_t.pd_t.init set_format_ok (fwd_req [e_sum])).1 = status_t.success
    ∧ _gemm_convolution_fwd_t.pd_t.is_gemm_conv_format (fwd_req [e_sum]).post_ops_ = true :=
  ⟨by decide,
    (post_ops_checked_by_forward_only set_format_ok).1 (fwd_req [e_sum]) (by decide)⟩

/-- C11, counterexample: with four threads and an output volume of 100 the
per-worker share is 25, below both thresholds, and yet each of the three
constructors chooses four workers. -/
theorem nthr_multi_below_threshold :
    c_div jcp_small.os 4 = some 25
    ∧ (25 : Int) < 256
    ∧ _gemm_convolution_fwd_t.nthr_ jcp_small 4 = some 4
    ∧ gemm_convolution_bwd_data_t.nthr_ jcp_small 4 = 4
    ∧ gemm_convolution_bwd_weights_t.nthr_ jcp_small 4 = some 4
    ∧ (1 : Int) < 4
    ∧ _gemm_convolution_fwd_t.nthr_ jcp_small 4 ≠ some 1
    ∧ gemm_convolution_bwd_weights_t.nthr_ jcp_small 4 ≠ some 1 := by
  decide

/-- C11, amended: the forward and backward-weights constructors choose more than
one worker only when the per-worker share os / T is below the threshold
(512 forward, 256 backward weights), and choose one worker when the share is
at least the threshold; the backward-data constructor does not read os, and
chooses more than one worker only when mb != 1 or ngroups > 2. -/
theorem nthr_multi_only_below_threshold (jcp : jit_gemm_conv_conf_t) (t : Int) :
    (∀ n, _gemm_convolution_fwd_t.nthr_ jcp t = some n → 1 < n →
        ∃ share, c_div jcp.os t = some share ∧ share < 512)
    ∧ (∀ share, c_div jcp.os t = some share → 512 ≤ share →
        _gemm_convolution_fwd_t.nthr_ jcp t = some 1)
    ∧ (∀ n, gemm_convolution_bwd_weights_t.nthr_ jcp t = some n → 1 < n →
        ∃ share, c_div jcp.os t = some share ∧ share < 256)
    ∧ (∀ share, c_div jcp.os t = some share → 256 ≤ share →
        gemm_convolution_bwd_weights_t.nthr_ jcp t = some 1)
    ∧ (1 < gemm_convolution_bwd_data_t.nthr_ jcp t → jcp.mb ≠ 1 ∨ jcp.ngroups > 2)
    ∧ (∀ os2 : Int, gemm_convolution_bwd_data_t.nthr_ { jcp with os := os2 } t
        = gemm_convolution_bwd_data_t.nthr_ jcp t) := by
  refine ⟨?_, ?_, ?_, ?_, ?_, ?_⟩
  · intro n hn h1
    obtain ⟨share, hs⟩ := fwd_nthr_share_of_some jcp t n hn
    refine ⟨share, hs, ?_⟩
    rw [fwd_nthr_of_share jcp t share hs] at hn
    by_contra hge
    rw [if_neg (fun hc => hge hc.1)] at hn
    simp only [Option.some.injEq] at hn
    omega
  · intro share hs hge
    rw [fwd_nthr_of_share jcp t share hs, if_neg (fun hc => by omega)]
  · intro n hn h1
    obtain ⟨share, hs⟩ := bwd_weights_nthr_share_of_some jcp t n hn
    refine ⟨share, hs, ?_⟩
    rw [bwd_weights_nthr_of_share jcp t share hs] at hn
    by_contra hge
    rw [if_neg (fun hc => hge hc.1)] at hn
    simp only [Option.some.injEq] at hn
    omega
  · intro share hs hge
    rw [bwd_weights_nthr_of_share jcp t share hs, if_neg (fun hc => by omega)]
  · intro h1
    rw [bwd_data_nthr_eq] at h1
    by_contra hc
    rw [if_neg hc] at h1
    omega
  · intro os2
    rw [bwd_data_nthr_eq, bwd_data_nthr_eq]

/-- Witness for C11, amended: at share 25 the forward constructor chooses four
workers; at share 1024 the forward and backward-weights constructors choose
one. -/
theorem nthr_multi_only_below_threshold_witness :
    (∃ share, c_div jcp_small.os 4 = some share ∧ share < 512)
    ∧ _gemm_convolution_fwd_t.nthr_ jcp_large 4 = some 1
    ∧ gemm_convolution_bwd_weights_t.nthr_ jcp_large 4 = some 1 :=
  ⟨(nthr_multi_only_below_threshold jcp_small 4).1 4 (by decide) (by decide),
    (nthr_multi_only_below_threshold jcp_large 4).2.1 1024 (by decide) (by decide),
    (nthr_multi_only_below_threshold jcp_large 4).2.2.2.1 1024 (by decide) (by decide)⟩

/-- C12: with mb = 1 and ngroups <= 2 the backward-data and backward-weights
constructors set nthr_ to 1 for every os and every thread count, and so does
the forward constructor when in addition od = 1. -/
theorem nthr_single_when_few_units (jcp : jit_gemm_conv_conf_t) (t : Int)
    (hmb : jcp.mb = 1) (hg : jcp.ngroups ≤ 2) :
    gemm_convolution_bwd_data_t.nthr_ jcp t = 1
    ∧ (∀ n, gemm_convolution_bwd_weights_t.nthr_ jcp t = some n → n = 1)
    ∧ (1 ≤ t → gemm_convolution_bwd_weights_t.nthr_ jcp t = some 1)
    ∧ (jcp.od = 1 →
        (∀ n, _gemm_convolution_fwd_t.nthr_ jcp t = some n → n = 1)
        ∧ (1 ≤ t → _gemm_convolution_fwd_t.nthr_ jcp t = some 1)) := by
  have hno : ¬ (jcp.mb ≠ 1 ∨ jcp.ngroups > 2) := by
    rintro (h | h)
    · exact h hmb
    · omega
  have hw : ∀ share, c_div jcp.os t = some share →
      gemm_convolution_bwd_weights_t.nthr_ jcp t = some 1 := by
    intro share hs
    rw [bwd_weights_nthr_of_share jcp t share hs, if_neg (fun hc => hno hc.2)]
  have hf : jcp.od = 1 → ∀ share, c_div jcp.os t = some share →
      _gemm_convolution_fwd_t.nthr_ jcp t = some 1 := by
    intro hod share hs
    rw [fwd_nthr_of_share jcp t share hs, if_neg (fun hc => hno (hc.2 hod))]
  refine ⟨?_, ?_, ?_, ?_⟩
  · rw [bwd_data_nthr_eq, if_neg hno]
  · intro n hn
    obtain ⟨share, hs⟩ := bwd_weights_nthr_share_of_some jcp t n hn
    rw [hw share hs] at hn
    simp only [Option.some.injEq] at hn
    exact hn.symm
  · intro ht
    exact hw _ (c_div_of_pos jcp.os t ht)
  · intro hod
    constructor
    · intro n hn
      obtain ⟨share, hs⟩ := fwd_nthr_share_of_some jcp t n hn
      rw [hf hod share hs] at hn
      simp only [Option.some.injEq] at hn
      exact hn.symm
    · intro ht
      exact hf hod _ (c_div_of_pos jcp.os t ht)

/-- Witness for C12: batch 1 with two groups and no depth axis gives one worker
in all three constructors at eight threads. -/
theorem nthr_single_when_few_units_witness :
    gemm_convolution_bwd_data_t.nthr_ jcp_single 8 = 1
    ∧ gemm_convolution_bwd_weights_t.nthr_ jcp_single 8 = some 1
    ∧ _gemm_convolution_fwd_t.nthr_ jcp_single 8 = some 1 :=
  ⟨(nthr_single_when_few_units jcp_single 8 rfl (by decide)).1,
    (nthr_single_when_few_units jcp_single 8 rfl (by decide)).2.2.1 (by decide),
    ((nthr_single_when_few_units jcp_single 8 rfl (by decide)).2.2.2 rfl).2 (by decide)⟩

/-- C13: on a backward-data descriptor that init accepted, execute takes the
execute_backward_data branch, and on an accepted backward-weights descriptor
the execute_backward_weights branch; the default branch with its assertion
is not reached. -/
theorem execute_branch_of_accepted (sf : set_format_t) :
    (∀ p : gemm_convolution_bwd_data_t.pd_t,
        (gemm_convolution_bwd_data_t.pd_t.init sf p).1 = status_t.success →
        gemm_convolution_bwd_data_t.execute (gemm_convolution_bwd_data_t.pd_t.init sf p).2
          = execute_path_t.execute_backward_data)
    ∧ (∀ p : gemm_convolution_bwd_weights_t.pd_t,
        (gemm_convolution_bwd_weights_t.pd_t.init sf p).1 = status_t.success →
        gemm_convolution_bwd_weights_t.execute
            (gemm_convolution_bwd_weights_t.pd_t.init sf p).2
          = execute_path_t.execute_backward_weights) := by
  constructor
  · intro p hs
    have hk := ((bwd_data_init_success_iff sf p).1 hs).2.1
    unfold gemm_convolution_bwd_data_t.execute
    rw [bwd_data_init_snd, (bwd_data_sdp_frame sf p).1]
    rcases hk with hk | hk <;> rw [hk]
  · intro p hs
    have hk := ((bwd_weights_init_success_iff sf p).1 hs).2.1
    unfold gemm_convolution_bwd_weights_t.execute
    rw [bwd_weights_init_snd, (bwd_weights_sdp_frame sf p).1]
    rcases hk with hk | hk <;> rw [hk]

/-- Witness for C13: the accepted backward request of either kind runs its
execution routine. -/
theorem execute_branch_of_accepted_witness :
    gemm_convolution_bwd_data_t.execute
        (gemm_convolution_bwd_data_t.pd_t.init set_format_ok
          (bwd_data_req prop_kind_t.backward [])).2 = execute_path_t.execute_backward_data
    ∧ gemm_convolution_bwd_weights_t.execute
        (gemm_convolution_bwd_weights_t.pd_t.init set_format_ok
          (bwd_weights_req prop_kind_t.backward_weights [])).2
        = execute_path_t.execute_backward_weights :=
  ⟨(execute_branch_of_accepted set_format_ok).1 (bwd_data_req prop_kind_t.backward [])
      (by decide),
    (execute_branch_of_accepted set_format_ok).2
      (bwd_weights_req prop_kind_t.backward_weights []) (by decide)⟩

/-- C15: for os >= 0 and T >= 1 the C division is defined and the test
os / T < K is equivalent to os < K * T; the forward constructor sets nthr_
to T when os < 512 * T and (od != 1 or mb != 1 or ngroups > 2), the
backward-weights constructor sets nthr_ to T when os < 256 * T and
(mb != 1 or ngroups > 2), and in every other case nthr_ is 1. For T other
than 1 the value T is therefore chosen exactly under these conditions. -/
theorem nthr_closed_form (jcp : jit_gemm_conv_conf_t) (t : Int)
    (hos : 0 ≤ jcp.os) (ht : 1 ≤ t) :
    (∃ share, c_div jcp.os t = some share ∧ ∀ k : Int, share < k ↔ jcp.os < k * t)
    ∧ _gemm_convolution_fwd_t.nthr_ jcp t
        = some (if jcp.os < 512 * t ∧ (jcp.od ≠ 1 ∨ jcp.mb ≠ 1 ∨ jcp.ngroups > 2)
                then t else 1)
    ∧ gemm_convolution_bwd_weights_t.nthr_ jcp t
        = some (if jcp.os < 256 * t ∧ (jcp.mb ≠ 1 ∨ jcp.ngroups > 2) then t else 1)
    ∧ (t ≠ 1 →
        (_gemm_convolution_fwd_t.nthr_ jcp t = some t
          ↔ jcp.os < 512 * t ∧ (jcp.od ≠ 1 ∨ jcp.mb ≠ 1 ∨ jcp.ngroups > 2))
        ∧ (gemm_convolution_bwd_weights_t.nthr_ jcp t = some t
          ↔ jcp.os < 256 * t ∧ (jcp.mb ≠ 1 ∨ jcp.ngroups > 2))) := by
  have hs := c_div_share jcp.os t hos ht
  have hf : _gemm_convolution_fwd_t.nthr_ jcp t
      = some (if jcp.os < 512 * t ∧ (jcp.od ≠ 1 ∨ jcp.mb ≠ 1 ∨ jcp.ngroups > 2)
              then t else 1) := by
    rw [fwd_nthr_of_share jcp t _ hs]
    have hiff : (jcp.os / t < 512 ∧ (jcp.od = 1 → jcp.mb ≠ 1 ∨ jcp.ngroups > 2))
        ↔ (jcp.os < 512 * t ∧ (jcp.od ≠ 1 ∨ jcp.mb ≠ 1 ∨ jcp.ngroups > 2)) := by
      rw [share_lt_iff jcp.os t 512 ht]
      constructor
      · rintro ⟨a, b⟩
        refine ⟨a, ?_⟩
        by_cases hod : jcp.od = 1
        · exact Or.inr (b hod)
        · exact Or.inl hod
      · rintro ⟨a, b⟩
        refine ⟨a, fun hod => ?_⟩
        rcases b with b | b
        · exact absurd hod b
        · exact b
    simp only [hiff]
  have hw : gemm_convolution_bwd_weights_t.nthr_ jcp t
      = some (if jcp.os < 256 * t ∧ (jcp.mb ≠ 1 ∨ jcp.ngroups > 2) then t else 1) := by
    rw [bwd_weights_nthr_of_share jcp t _ hs]
    simp only [share_lt_iff jcp.os t 256 ht]
  refine ⟨⟨jcp.os / t, hs, fun k => share_lt_iff jcp.os t k ht⟩, hf, hw, fun hne => ⟨?_, ?_⟩⟩
  · rw [hf]
    constructor
    · intro h
      by_contra hc
      rw [if_neg hc] at h
      simp only [Option.some.injEq] at h
      exact hne h.symm
    · intro hc
      rw [if_pos hc]
  · rw [hw]
    constructor
    · intro h
      by_contra hc
      rw [if_neg hc] at h
      simp only [Option.some.injEq] at h
      exact hne h.symm
    · intro hc
      rw [if_pos hc]

/-- Witness for C15: at four threads, os = 100 gives four workers and
os = 4096 gives one, in the forward constructor. -/
theorem nthr_closed_form_witness :
    _gemm_convolution_fwd_t.nthr_ jcp_small 4
        = some (if jcp_small.os < 512 * 4
                  ∧ (jcp_small.od ≠ 1 ∨ jcp_small.mb ≠ 1 ∨ jcp_small.ngroups > 2)
                then 4 else 1)
    ∧ gemm_convolution_bwd_weights_t.nthr_ jcp_large 4
        = some (if jcp_large.os < 256 * 4 ∧ (jcp_large.mb ≠ 1 ∨ jcp_large.ngroups > 2)
                then 4 else 1) :=
  ⟨(nthr_closed_form jcp_small 4 (by decide) (by decide)).2.1,
    (nthr_closed_form jcp_large 4 (by decide) (by decide)).2.2.1⟩

/-- C16: the backward-data constructor sets nthr_ to T when mb != 1 or
ngroups > 2 and to 1 otherwise, whatever os and od are; for T other than 1
the value T is chosen exactly under that condition; two configurations with
the same mb and ngroups get the same nthr_. -/
theorem bwd_data_nthr_depends_on_mb_ngroups (t : Int) :
    (∀ jcp : jit_gemm_conv_conf_t,
        gemm_convolution_bwd_data_t.nthr_ jcp t
          = (if jcp.mb ≠ 1 ∨ jcp.ngroups > 2 then t else 1))
    ∧ (∀ jcp : jit_gemm_conv_conf_t, t ≠ 1 →
        (gemm_convolution_bwd_data_t.nthr_ jcp t = t ↔ jcp.mb ≠ 1 ∨ jcp.ngroups > 2))
    ∧ (∀ a b : jit_gemm_conv_conf_t, a.mb = b.mb → a.ngroups = b.ngroups →
        gemm_convolution_bwd_data_t.nthr_ a t = gemm_convolution_bwd_data_t.nthr_ b t) := by
  refine ⟨fun jcp => bwd_data_nthr_eq jcp t, fun jcp hne => ?_, fun a b h1 h2 => ?_⟩
  · rw [bwd_data_nthr_eq]
    constructor
    · intro h
      by_contra hc
      rw [if_neg hc] at h
      exact hne h.symm
    · intro hc
      rw [if_pos hc]
  · rw [bwd_data_nthr_eq, bwd_data_nthr_eq, h1, h2]

/-- Witness for C16: at four threads the small and the large configuration,
which differ in os only, both get four workers. -/
theorem bwd_data_nthr_depends_on_mb_ngroups_witness :
    gemm_convolution_bwd_data_t.nthr_ jcp_small 4
        = gemm_convolution_bwd_data_t.nthr_ jcp_large 4
    ∧ (gemm_convolution_bwd_data_t.nthr_ jcp_small 4 = 4
        ↔ jcp_small.mb ≠ 1 ∨ jcp_small.ngroups > 2) :=
  ⟨(bwd_data_nthr_depends_on_mb_ngroups 4).2.2 jcp_small jcp_large rfl rfl,
    (bwd_data_nthr_depends_on_mb_ngroups 4).2.1 jcp_small (by decide)⟩

/-- C17: in all three constructors the worker count is 1 or the value T of
omp_get_max_threads(); when T >= 1 the division os / T is defined (the
divisor is not zero), each constructor yields a worker count, and
1 <= nthr_ <= T. -/
theorem nthr_one_or_max (jcp : jit_gemm_conv_conf_t) (t : Int) :
    (∀ n, _gemm_convolution_fwd_t.nthr_ jcp t = some n → n = 1 ∨ n = t)
    ∧ (gemm_convolution_bwd_data_t.nthr_ jcp t = 1
        ∨ gemm_convolution_bwd_data_t.nthr_ jcp t = t)
    ∧ (∀ n, gemm_convolution_bwd_weights_t.nthr_ jcp t = some n → n = 1 ∨ n = t)
    ∧ (1 ≤ t →
        t ≠ 0
        ∧ (∃ share, c_div jcp.os t = some share)
        ∧ (∃ n, _gemm_convolution_fwd_t.nthr_ jcp t = some n ∧ 1 ≤ n ∧ n ≤ t)
        ∧ (1 ≤ gemm_convolution_bwd_data_t.nthr_ jcp t
            ∧ gemm_convolution_bwd_data_t.nthr_ jcp t ≤ t)
        ∧ (∃ n, gemm_convolution_bwd_weights_t.nthr_ jcp t = some n ∧ 1 ≤ n ∧ n ≤ t)) := by
  have h1 : ∀ n, _gemm_convolution_fwd_t.nthr_ jcp t = some n → n = 1 ∨ n = t := by
    intro n hn
    obtain ⟨share, hs⟩ := fwd_nthr_share_of_some jcp t n hn
    rw [fwd_nthr_of_share jcp t share hs] at hn
    simp only [Option.some.injEq] at hn
    split_ifs at hn
    · exact Or.inr hn.symm
    · exact Or.inl hn.symm
  have h2 : gemm_convolution_bwd_data_t.nthr_ jcp t = 1
      ∨ gemm_convolution_bwd_data_t.nthr_ jcp t = t := by
    rw [bwd_data_nthr_eq]
    split_ifs
    · exact Or.inr rfl
    · exact Or.inl rfl
  have h3 : ∀ n, gemm_convolution_bwd_weights_t.nthr_ jcp t = some n → n = 1 ∨ n = t := by
    intro n hn
    obtain ⟨share, hs⟩ := bwd_weights_nthr_share_of_some jcp t n hn
    rw [bwd_weights_nthr_of_share jcp t share hs] at hn
    simp only [Option.some.injEq] at hn
    split_ifs at hn
    · exact Or.inr hn.symm
    · exact Or.inl hn.symm
  refine ⟨h1, h2, h3, fun ht => ⟨by omega, ⟨_, c_div_of_pos jcp.os t ht⟩, ?_, ?_, ?_⟩⟩
  · have hf := fwd_nthr_of_share jcp t _ (c_div_of_pos jcp.os t ht)
    refine ⟨_, hf, ?_⟩
    rcases h1 _ hf with h | h <;> rw [h] <;> omega
  · rcases h2 with h | h <;> rw [h] <;> omega
  · have hw := bwd_weights_nthr_of_share jcp t _ (c_div_of_pos jcp.os t ht)
    refine ⟨_, hw, ?_⟩
    rcases h3 _ hw with h | h <;> rw [h] <;> omega

/-- Witness for C17: at eight threads the division is defined and the forward
worker count lies between 1 and 8. -/
theorem nthr_one_or_max_witness :
    (∃ share, c_div jcp_large.os 8 = some share)
    ∧ (∃ n, _gemm_convolution_fwd_t.nthr_ jcp_large 8 = some n ∧ 1 ≤ n ∧ n ≤ 8) :=
  ⟨((nthr_one_or_max jcp_large 8).2.2.2 (by decide)).2.1,
    ((nthr_one_or_max jcp_large 8).2.2.2 (by decide)).2.2.1⟩

/-- C18: in each of the three validators set_default_params leaves every memory
descriptor whose layout is not any as it was, and leaves the operation
descriptor, the group and bias presence and the post-ops as they were; when
set_format itself changes nothing but the layout, the rank and the element
type of every memory descriptor are left as they were too, so only layouts
of descriptors that were any can change. This holds also when a set_format
call fails and set_default_params returns early. -/
theorem set_default_params_frame (sf : set_format_t) :
    (∀ p : _gemm_convolution_fwd_t.pd_t,
        ((p.src_pd_.format ≠ memory_format_t.any →
            (_gemm_convolution_fwd_t.pd_t.set_default_params sf p).2.src_pd_ = p.src_pd_)
        ∧ (p.dst_pd_.format ≠ memory_format_t.any →
            (_gemm_convolution_fwd_t.pd_t.set_default_params sf p).2.dst_pd_ = p.dst_pd_)
        ∧ (p.weights_pd_.format ≠ memory_format_t.any →
            (_gemm_convolution_fwd_t.pd_t.set_default_params sf p).2.weights_pd_ = p.weights_pd_)
        ∧ (p.bias_pd_.format ≠ memory_format_t.any →
            (_gemm_convolution_fwd_t.pd_t.set_default_params sf p).2.bias_pd_ = p.bias_pd_))
        ∧ ((_gemm_convolution_fwd_t.pd_t.set_default_params sf p).2.cdesc_ = p.cdesc_
        ∧ (_gemm_convolution_fwd_t.pd_t.set_default_params sf p).2.with_groups = p.with_groups
        ∧ (_gemm_convolution_fwd_t.pd_t.set_default_params sf p).2.with_bias = p.with_bias
        ∧ (_gemm_convolution_fwd_t.pd_t.set_default_params sf p).2.post_ops_ = p.post_ops_)
        ∧ ((∀ d fmt, (sf d fmt).2.ndims = d.ndims ∧ (sf d fmt).2.data_type = d.data_type) →
          (_gemm_convolution_fwd_t.pd_t.set_default_params sf p).2.src_pd_.ndims = p.src_pd_.ndims
          ∧ (_gemm_convolution_fwd_t.pd_t.set_default_params sf p).2.src_pd_.data_type = p.src_pd_.data_type
          ∧ (_gemm_convolution_fwd_t.pd_t.set_default_params sf p).2.dst_pd_.ndims = p.dst_pd_.ndims
          ∧ (_gemm_convolution_fwd_t.pd_t.set_default_params sf p).2.dst_pd_.data_type = p.dst_pd_.data_type
          ∧ (_gemm_convolution_fwd_t.pd_t.set_default_params sf p).2.weights_pd_.ndims = p.weights_pd_.ndims
          ∧ (_gemm_convolution_fwd_t.pd_t.set_default_params sf p).2.weights_pd_.data_type = p.weights_pd_.data_type
          ∧ (_gemm_convolution_fwd_t.pd_t.set_default_params sf p).2.bias_pd_.ndims = p.bias_pd_.ndims
          ∧ (_gemm_convolution_fwd_t.pd_t.set_default_params sf p).2.bias_pd_.data_type = p.bias_pd_.data_type))
    ∧
    (∀ p : gemm_convolution_bwd_data_t.pd_t,
        ((p.diff_src_pd_.format ≠ memory_format_t.any →
            (gemm_convolution_bwd_data_t.pd_t.set_default_params sf p).2.diff_src_pd_ = p.diff_src_pd_)
        ∧ (p.diff_dst_pd_.format ≠ memory_format_t.any →
            (gemm_convolution_bwd_data_t.pd_t.set_default_params sf p).2.diff_dst_pd_ = p.diff_dst_pd_)
        ∧ (p.weights_pd_.format ≠ memory_format_t.any →
            (gemm_convolution_bwd_data_t.pd_t.set_default_params sf p).2.weights_pd_ = p.weights_pd_))
        ∧ ((gemm_convolution_bwd_data_t.pd_t.set_default_params sf p).2.desc = p.desc
        ∧ (gemm_convolution_bwd_data_t.pd_t.set_default_params sf p).2.with_groups = p.with_groups
        ∧ (gemm_convolution_bwd_data_t.pd_t.set_default_params sf p).2.post_ops_ = p.post_ops_)
        ∧ ((∀ d fmt, (sf d fmt).2.ndims = d.ndims ∧ (sf d fmt).2.data_type = d.data_type) →
          (gemm_convolution_bwd_data_t.pd_t.set_default_params sf p).2.diff_src_pd_.ndims = p.diff_src_pd_.ndims
          ∧ (gemm_convolution_bwd_data_t.pd_t.set_default_params sf p).2.diff_src_pd_.data_type = p.diff_src_pd_.data_type
          ∧ (gemm_convolution_bwd_data_t.pd_t.set_default_params sf p).2.diff_dst_pd_.ndims = p.diff_dst_pd_.ndims
          ∧ (gemm_convolution_bwd_data_t.pd_t.set_default_params sf p).2.diff_dst_pd_.data_type = p.diff_dst_pd_.data_type
          ∧ (gemm_convolution_bwd_data_t.pd_t.set_default_params sf p).2.weights_pd_.ndims = p.weights_pd_.ndims
          ∧ (gemm_convolution_bwd_data_t.pd_t.set_default_params sf p).2.weights_pd_.data_type = p.weights_pd_.data_type))
    ∧
    (∀ p : gemm_convolution_bwd_weights_t.pd_t,
        ((p.src_pd_.format ≠ memory_format_t.any →
            (gemm_convolution_bwd_weights_t.pd_t.set_default_params sf p).2.src_pd_ = p.src_pd_)
        ∧ (p.diff_dst_pd_.format ≠ memory_format_t.any →
            (gemm_convolution_bwd_weights_t.pd_t.set_default_params sf p).2.diff_dst_pd_ = p.diff_dst_pd_)
        ∧ (p.diff_weights_pd_.format ≠ memory_format_t.any →
            (gemm_convolution_bwd_weights_t.pd_t.set_default_params sf p).2.diff_weights_pd_ = p.diff_weights_pd_)
        ∧ (p.diff_bias_pd_.format ≠ memory_format_t.any →
            (gemm_convolution_bwd_weights_t.pd_t.set_default_params sf p).2.diff_bias_pd_ = p.diff_bias_pd_))
        ∧ ((gemm_convolution_bwd_weights_t.pd_t.set_default_params sf p).2.desc = p.desc
        ∧ (gemm_convolution_bwd_weights_t.pd_t.set_default_params sf p).2.with_groups = p.with_groups
        ∧ (gemm_convolution_bwd_weights_t.pd_t.set_default_params sf p).2.with_bias = p.with_bias
        ∧ (gemm_convolution_bwd_weights_t.pd_t.set_default_params sf p).2.post_ops_ = p.post_ops_)
        ∧ ((∀ d fmt, (sf d fmt).2.ndims = d.ndims ∧ (sf d fmt).2.data_type = d.data_type) →
          (gemm_convolution_bwd_weights_t.pd_t.set_default_params sf p).2.src_pd_.ndims = p.src_pd_.ndims
          ∧ (gemm_convolution_bwd_weights_t.pd_t.set_default_params sf p).2.src_pd_.data_type = p.src_pd_.data_type
          ∧ (gemm_convolution_bwd_weights_t.pd_t.set_default_params sf p).2.diff_dst_pd_.ndims = p.diff_dst_pd_.ndims
          ∧ (gemm_convolution_bwd_weights_t.pd_t.set_default_params sf p).2.diff_dst_pd_.data_type = p.diff_dst_pd_.data_type
          ∧ (gemm_convolution_bwd_weights_t.pd_t.set_default_params sf p).2.diff_weights_pd_.ndims = p.diff_weights_pd_.ndims
          ∧ (gemm_convolution_bwd_weights_t.pd_t.set_default_params sf p).2.diff_weights_pd_.data_type = p.diff_weights_pd_.data_type
          ∧ (gemm_convolution_bwd_weights_t.pd_t.set_default_params sf p).2.diff_bias_pd_.ndims = p.diff_bias_pd_.ndims
          ∧ (gemm_convolution_bwd_weights_t.pd_t.set_default_params sf p).2.diff_bias_pd_.data_type = p.diff_bias_pd_.data_type)) :=
  ⟨fun p => ⟨fwd_sdp_keep sf p, fwd_sdp_frame sf p, fun hp => fwd_sdp_rank_type sf hp p⟩,
    fun p => ⟨bwd_data_sdp_keep sf p, bwd_data_sdp_frame sf p,
      fun hp => bwd_data_sdp_rank_type sf hp p⟩,
    fun p => ⟨bwd_weights_sdp_keep sf p, bwd_weights_sdp_frame sf p,
      fun hp => bwd_weights_sdp_rank_type sf hp p⟩⟩

/-- Witness for C18: an explicit src layout survives set_default_params, and the
weights descriptor that was any keeps its rank. -/
theorem set_default_params_frame_witness :
    (_gemm_convolution_fwd_t.pd_t.set_default_params set_format_ok
        (fwd_req_with_src memory_format_t.nchw)).2.src_pd_
      = (fwd_req_with_src memory_format_t.nchw).src_pd_
    ∧ (_gemm_convolution_fwd_t.pd_t.set_default_params set_format_ok
        (fwd_req_with_src memory_format_t.nchw)).2.weights_pd_.ndims
      = (fwd_req_with_src memory_format_t.nchw).weights_pd_.ndims
    ∧ (gemm_convolution_bwd_data_t.pd_t.set_default_params set_format_oom
        (bwd_data_req_with_weights memory_format_t.oihw)).2.weights_pd_
      = (bwd_data_req_with_weights memory_format_t.oihw).weights_pd_ :=
  ⟨((set_default_params_frame set_format_ok).1
        (fwd_req_with_src memory_format_t.nchw)).1.1 (by decide),
    (((set_default_params_frame set_format_ok).1
        (fwd_req_with_src memory_format_t.nchw)).2.2 (fun _ _ => ⟨rfl, rfl⟩)).2.2.2.2.1,
    ((set_default_params_frame set_format_oom).2.1
        (bwd_data_req_with_weights memory_format_t.oihw)).1.2.2 (by decide)⟩

/-- C19: when set_format stores the layout and succeeds, in each of the three
validators a second set_default_params on the state left by the first
succeeds and changes nothing, and init re-run on the resolved request
returns the same status and the same state. -/
theorem set_default_params_idempotent (sf : set_format_t)
    (hsf : ∀ d fmt, sf d fmt = (status_t.success, { d with format := fmt })) :
    (∀ p : _gemm_convolution_fwd_t.pd_t,
        (_gemm_convolution_fwd_t.pd_t.set_default_params sf p).1 = status_t.success
        ∧ _gemm_convolution_fwd_t.pd_t.set_default_params sf
            (_gemm_convolution_fwd_t.pd_t.set_default_params sf p).2
          = (status_t.success, (_gemm_convolution_fwd_t.pd_t.set_default_params sf p).2)
        ∧ _gemm_convolution_fwd_t.pd_t.init sf (_gemm_convolution_fwd_t.pd_t.init sf p).2
          = _gemm_convolution_fwd_t.pd_t.init sf p)
    ∧ (∀ p : gemm_convolution_bwd_data_t.pd_t,
        (gemm_convolution_bwd_data_t.pd_t.set_default_params sf p).1 = status_t.success
        ∧ gemm_convolution_bwd_data_t.pd_t.set_default_params sf
            (gemm_convolution_bwd_data_t.pd_t.set_default_params sf p).2
          = (status_t.success, (gemm_convolution_bwd_data_t.pd_t.set_default_params sf p).2)
        ∧ gemm_convolution_bwd_data_t.pd_t.init sf
            (gemm_convolution_bwd_data_t.pd_t.init sf p).2
          = gemm_convolution_bwd_data_t.pd_t.init sf p)
    ∧ (∀ p : gemm_convolution_bwd_weights_t.pd_t,
        (gemm_convolution_bwd_weights_t.pd_t.set_default_params sf p).1 = status_t.success
        ∧ gemm_convolution_bwd_weights_t.pd_t.set_default_params sf
            (gemm_convolution_bwd_weights_t.pd_t.set_default_params sf p).2
          = (status_t.success,
              (gemm_convolution_bwd_weights_t.pd_t.set_default_params sf p).2)
        ∧ gemm_convolution_bwd_weights_t.pd_t.init sf
            (gemm_convolution_bwd_weights_t.pd_t.init sf p).2
          = gemm_convolution_bwd_weights_t.pd_t.init sf p) :=
  ⟨fun p => ⟨(fwd_sdp_stores sf hsf p).1, fwd_sdp_idem sf hsf p, fwd_init_idem sf hsf p⟩,
    fun p => ⟨(bwd_data_sdp_stores sf hsf p).1, bwd_data_sdp_idem sf hsf p,
      bwd_data_init_idem sf hsf p⟩,
    fun p => ⟨(bwd_weights_sdp_stores sf hsf p).1, bwd_weights_sdp_idem sf hsf p,
      bwd_weights_init_idem sf hsf p⟩⟩

/-- Witness for C19: re-running init on the resolved forward request with
post-ops sum, relu gives success again, as does the first run. -/
theorem set_default_params_idempotent_witness :
    (_gemm_convolution_fwd_t.pd_t.init set_format_ok (fwd_req [e_sum, e_relu])).1
        = status_t.success
    ∧ _gemm_convolution_fwd_t.pd_t.init set_format_ok
        (_gemm_convolution_fwd_t.pd_t.init set_format_ok (fwd_req [e_sum, e_relu])).2
      = _gemm_convolution_fwd_t.pd_t.init set_format_ok (fwd_req [e_sum, e_relu])
    ∧ gemm_convolution_bwd_data_t.pd_t.set_default_params set_format_ok
        (gemm_convolution_bwd_data_t.pd_t.set_default_params set_format_ok
          (bwd_data_req prop_kind_t.backward_data [])).2
      = (status_t.success,
          (gemm_convolution_bwd_data_t.pd_t.set_default_params set_format_ok
            (bwd_data_req prop_kind_t.backward_data [])).2) :=
  ⟨by decide,
    ((set_default_params_idempotent set_format_ok (fun _ _ => rfl)).1
      (fwd_req [e_sum, e_relu])).2.2,
    ((set_default_params_idempotent set_format_ok (fun _ _ => rfl)).2.1
      (bwd_data_req prop_kind_t.backward_data [])).2.1⟩

end mkldnn
